import Mathlib

/-
  Verification development for a tree-walking interpreter of a small
  imperative expression language (lexer, recursive-descent parser,
  semantic analyzer, evaluator with lexically scoped environments).

  The definitions below are a shallow embedding of the C++ sources:
    lexer.cpp, parser2.cpp, environment.cpp, value.cpp, interp.cpp,
  together with the data model of token.h, ast.h, environment.h.
  Machine `int` values are modelled as unbounded Int (the language spec
  leaves the width open and specifies no overflow checking); the
  character source is a list of characters; C++ exceptions are modelled
  with Except; recursion that is unbounded in the source (parser
  descent, evaluation, while loops) is indexed by explicit fuel.
-/

namespace Minilang

/-- Source location (file, 1-based line, 1-based column), as carried by
tokens and AST nodes for error reporting. -/
structure Location where
  file : String
  line : Nat
  col : Nat
deriving DecidableEq, Repr

/-- The error taxonomy of exceptions.h: SyntaxError (lexer, parser),
SemanticError (analyzer, undefined-name at runtime), EvaluationError
(runtime semantic failure), RuntimeError (internal invariant failure,
carries no location). -/
inductive ErrKind where
  | syntaxError
  | semanticError
  | evaluationError
  | runtimeError
deriving DecidableEq, Repr

/-- An error: kind, optional source location, formatted message. -/
structure Err where
  kind : ErrKind
  loc : Option Location
  msg : String
deriving DecidableEq, Repr

/-- Token kinds, from token.h. -/
inductive TokenKind where
  | IDENTIFIER
  | INTEGER_LITERAL
  | PLUS
  | MINUS
  | TIMES
  | DIVIDE
  | LPAREN
  | RPAREN
  | SEMICOLON
  | AMPERSAND
  | PIPE
  | GREATER
  | LESS
  | EXCLAMATION
  | EQUAL
  | VAR
  | DOUBLE_AMPERSAND
  | DOUBLE_PIPE
  | LESS_EQUAL
  | GREATER_EQUAL
  | DOUBLE_EQUAL
  | NOT_EQUAL
  | FUNCTION
  | IF
  | ELSE
  | WHILE
  | LBRACE
  | RBRACE
  | COMMA
deriving DecidableEq, Repr

/-- A token: kind, lexeme text, source location (in the C++ code tokens
are Node objects tagged with the token kind). -/
structure Token where
  kind : TokenKind
  text : String
  loc : Location
deriving DecidableEq, Repr

/-- AST node tags, from ast.h (enum values 2000, 2001, ...). -/
inductive ASTKind where
  | ADD
  | SUB
  | MULTIPLY
  | DIVIDE
  | VARREF
  | INT_LITERAL
  | UNIT
  | STATEMENT
  | VARDEF
  | ASSIGN
  | LOGICAL_OR
  | LOGICAL_AND
  | LESS
  | LESS_EQUAL
  | GREATER
  | GREATER_EQUAL
  | EQUAL
  | NOT_EQUAL
  | IF
  | WHILE
  | FUNCTION
  | FNCALL
  | STATEMENT_LIST
  | PARAMETER_LIST
  | ARGLIST
deriving DecidableEq, Repr

/-- The numeric value of an AST tag per ast.h (AST_ADD = 2000 and the
rest follow in declaration order); used by the evaluator's default-case
error message. -/
def ASTKind.tagNum : ASTKind → Nat
  | .ADD => 2000
  | .SUB => 2001
  | .MULTIPLY => 2002
  | .DIVIDE => 2003
  | .VARREF => 2004
  | .INT_LITERAL => 2005
  | .UNIT => 2006
  | .STATEMENT => 2007
  | .VARDEF => 2008
  | .ASSIGN => 2009
  | .LOGICAL_OR => 2010
  | .LOGICAL_AND => 2011
  | .LESS => 2012
  | .LESS_EQUAL => 2013
  | .GREATER => 2014
  | .GREATER_EQUAL => 2015
  | .EQUAL => 2016
  | .NOT_EQUAL => 2017
  | .IF => 2018
  | .WHILE => 2019
  | .FUNCTION => 2020
  | .FNCALL => 2021
  | .STATEMENT_LIST => 2022
  | .PARAMETER_LIST => 2023
  | .ARGLIST => 2024

/-- AST node: tag, optional string payload (identifier name or literal
digits; empty when unused), source location, ordered children.  Nodes
constructed without an explicit location keep the default location. -/
inductive Node where
  | mk (tag : ASTKind) (str : String) (loc : Location) (kids : List Node)
deriving Repr

def Node.tag : Node → ASTKind
  | .mk t _ _ _ => t

def Node.str : Node → String
  | .mk _ s _ _ => s

def Node.loc : Node → Location
  | .mk _ _ l _ => l

def Node.kids : Node → List Node
  | .mk _ _ _ ks => ks

/-- Default location of a freshly constructed Node before set_loc. -/
def noLoc : Location := ⟨"", 0, 0⟩

----------------------------------------------------------------------
-- Lexer (lexer.cpp)
----------------------------------------------------------------------

/-- Lexer state: remaining input characters, current (line, col), and
the end-of-input flag m_eof.  The pushback of Lexer::unread is modelled
by prepending to the remaining input. -/
structure LexState where
  file : String
  input : List Char
  line : Nat
  col : Nat
  eof : Bool
deriving DecidableEq, Repr

def LexState.curLoc (st : LexState) : Location :=
  ⟨st.file, st.line, st.col⟩

/-- Lexer::read — consume one character, updating (line, col); returns
none once end of input is reached (and latches m_eof). -/
def lexRead (st : LexState) : Option Char × LexState :=
  if st.eof then
    (none, st)
  else
    match st.input with
    | [] => (none, { st with eof := true })
    | c :: rest =>
      if c = '\n' then
        (some c, { st with input := rest, col := 1, line := st.line + 1 })
      else
        (some c, { st with input := rest, col := st.col + 1 })

/-- Lexer::unread — push one character back (ungetc is a no-op at end
of input, but the position adjustment still happens). -/
def lexUnread (c : Option Char) (st : LexState) : LexState :=
  let st' :=
    match c with
    | some ch => { st with input := ch :: st.input }
    | none => st
  if c = some '\n' then
    { st' with line := st'.line - 1, col := 99 }
  else
    { st' with col := st'.col - 1 }

/-- C isspace (default locale): space, \t, \n, \v, \f, \r. -/
def isSpaceC (c : Char) : Bool :=
  c = ' ' || c = '\t' || c = '\n' || c = '\x0b' || c = '\x0c' || c = '\r'

/-- C isalpha in the ASCII range. -/
def isAlphaC (c : Char) : Bool :=
  ('a' ≤ c && c ≤ 'z') || ('A' ≤ c && c ≤ 'Z')

/-- C isdigit. -/
def isDigitC (c : Char) : Bool :=
  '0' ≤ c && c ≤ '9'

/-- C isalnum. -/
def isAlnumC (c : Char) : Bool :=
  isAlphaC c || isDigitC c

/-- Lexer::token_create — build a token at (line, col). -/
def tokenCreate (st : LexState) (kind : TokenKind) (lexeme : String)
    (line col : Nat) : Token :=
  ⟨kind, lexeme, ⟨st.file, line, col⟩⟩

/-
  The character-consuming loops of the lexer (whitespace skipping and
  read_continued_token) consume one input character per step; they are
  written with a structural fuel parameter that their callers set to
  more than the remaining input length, so the fuel never runs out.
-/

/-- The leading whitespace-skipping loop of Lexer::read_token: skip
isspace characters, recording (line, col) just before each read;
returns the recorded location of, and the first, non-whitespace
character (none at end of input). -/
def skipWsF : Nat → LexState → Nat × Nat × Option Char × LexState
  | 0, st => (st.line, st.col, none, st)
  | f + 1, st =>
    let line := st.line
    let col := st.col
    match lexRead st with
    | (none, st') => (line, col, none, st')
    | (some c, st') =>
      if isSpaceC c then skipWsF f st' else (line, col, some c, st')

def skipWs (st : LexState) : Nat × Nat × Option Char × LexState :=
  skipWsF (st.input.length + 1) st

/-- Lexer::read_continued_token — extend the lexeme while the predicate
holds, pushing back the first non-matching character. -/
def readContinuedTokenF (kind : TokenKind) (pred : Char → Bool) :
    Nat → String → Nat → Nat → LexState → Token × LexState
  | 0, lexemeStart, line, col, st => (tokenCreate st kind lexemeStart line col, st)
  | f + 1, lexemeStart, line, col, st =>
    match lexRead st with
    | (none, st') => (tokenCreate st' kind lexemeStart line col, st')
    | (some c, st') =>
      if pred c then
        readContinuedTokenF kind pred f (lexemeStart.push c) line col st'
      else
        (tokenCreate st' kind lexemeStart line col, lexUnread (some c) st')

def readContinuedToken (kind : TokenKind) (lexemeStart : String)
    (line col : Nat) (pred : Char → Bool) (st : LexState) :
    Token × LexState :=
  readContinuedTokenF kind pred (st.input.length + 1) lexemeStart line col st

/-- Lexer::handle_identifier_or_keyword — read an alphanumeric lexeme
and reclassify the reserved words var/function/if/else/while. -/
def handleIdentifierOrKeyword (lexeme : String) (line col : Nat)
    (st : LexState) : Token × LexState :=
  let (tok, st') := readContinuedToken .IDENTIFIER lexeme line col isAlnumC st
  if tok.text = "var" then
    (tokenCreate st' .VAR tok.text line col, st')
  else if tok.text = "function" then
    (tokenCreate st' .FUNCTION tok.text line col, st')
  else if tok.text = "if" then
    (tokenCreate st' .IF tok.text line col, st')
  else if tok.text = "else" then
    (tokenCreate st' .ELSE tok.text line col, st')
  else if tok.text = "while" then
    (tokenCreate st' .WHILE tok.text line col, st')
  else
    (tok, st')

/-- Lexer::check_and_create_double_char_token — if the next character
matches, produce the two-character token; otherwise push the character
back and return none. -/
def checkAndCreateDoubleCharToken (expectedNext : Char)
    (doubleKind : TokenKind) (lexeme : String) (line col : Nat)
    (st : LexState) : Option Token × LexState :=
  let (nextChar, st') := lexRead st
  if nextChar = some expectedNext then
    (some (tokenCreate st' doubleKind
      (lexeme.push expectedNext) line col), st')
  else
    (none, lexUnread nextChar st')

/-- Lexer::handle_token — single- and two-character punctuation; '&',
'|', '!' demand their second character, otherwise SyntaxError. -/
def handleToken (c : Char) (lexeme : String) (line col : Nat)
    (st : LexState) : Except Err (Token × LexState) :=
  match c with
  | '+' => .ok (tokenCreate st .PLUS lexeme line col, st)
  | '-' => .ok (tokenCreate st .MINUS lexeme line col, st)
  | '*' => .ok (tokenCreate st .TIMES lexeme line col, st)
  | '/' => .ok (tokenCreate st .DIVIDE lexeme line col, st)
  | '(' => .ok (tokenCreate st .LPAREN lexeme line col, st)
  | ')' => .ok (tokenCreate st .RPAREN lexeme line col, st)
  | ';' => .ok (tokenCreate st .SEMICOLON lexeme line col, st)
  | '&' =>
    match checkAndCreateDoubleCharToken '&' .DOUBLE_AMPERSAND lexeme line col st with
    | (some tok, st') => .ok (tok, st')
    | (none, st') =>
      .error ⟨.syntaxError, some st'.curLoc,
        "Unexpected character '&' (expected '&&')"⟩
  | '|' =>
    match checkAndCreateDoubleCharToken '|' .DOUBLE_PIPE lexeme line col st with
    | (some tok, st') => .ok (tok, st')
    | (none, st') =>
      .error ⟨.syntaxError, some st'.curLoc,
        "Unexpected character '|' (expected '||')"⟩
  | '=' =>
    let (nextChar, st') := lexRead st
    if nextChar = some '=' then
      .ok (tokenCreate st' .DOUBLE_EQUAL (lexeme.push '=') line col, st')
    else
      .ok (tokenCreate st' .EQUAL lexeme line col, lexUnread nextChar st')
  | '<' =>
    let (nextChar, st') := lexRead st
    if nextChar = some '=' then
      .ok (tokenCreate st' .LESS_EQUAL (lexeme.push '=') line col, st')
    else
      .ok (tokenCreate st' .LESS lexeme line col, lexUnread nextChar st')
  | '>' =>
    let (nextChar, st') := lexRead st
    if nextChar = some '=' then
      .ok (tokenCreate st' .GREATER_EQUAL (lexeme.push '=') line col, st')
    else
      .ok (tokenCreate st' .GREATER lexeme line col, lexUnread nextChar st')
  | '!' =>
    let (nextChar, st') := lexRead st
    if nextChar = some '=' then
      .ok (tokenCreate st' .NOT_EQUAL (lexeme.push '=') line col, st')
    else
      let st'' := lexUnread nextChar st'
      .error ⟨.syntaxError, some st''.curLoc,
        "Unexpected character '!' (expected '!=')"⟩
  | '{' => .ok (tokenCreate st .LBRACE lexeme line col, st)
  | '}' => .ok (tokenCreate st .RBRACE lexeme line col, st)
  | ',' => .ok (tokenCreate st .COMMA lexeme line col, st)
  | _ =>
    .error ⟨.syntaxError, some st.curLoc,
      "Unrecognized character '" ++ String.singleton c ++ "'"⟩

/-- Lexer::read_token — skip whitespace, classify the first character
(identifier/keyword, integer literal, or punctuation); none at clean
end of input. -/
def readToken (st : LexState) : Except Err (Option Token × LexState) :=
  match skipWs st with
  | (_, _, none, st') => .ok (none, st')
  | (line, col, some c, st') =>
    let lexeme := String.singleton c
    if isAlphaC c then
      let (tok, st'') := handleIdentifierOrKeyword lexeme line col st'
      .ok (some tok, st'')
    else if isDigitC c then
      let (tok, st'') := readContinuedToken .INTEGER_LITERAL lexeme line col isDigitC st'
      .ok (some tok, st'')
    else
      match handleToken c lexeme line col st' with
      | .ok (tok, st'') => .ok (some tok, st'')
      | .error e => .error e

/-- Modelling artifact: an internal error used only when explicit fuel
runs out; never reached at the fuel bounds used in the theorems. -/
def fuelErr : Err := ⟨.runtimeError, none, "Fuel exhausted."⟩

/-- Tokenize the entire input (the driver's lex phase; the lexer
itself is demand-driven, but every claim below concerns inputs that
are lexed in full).  The fuel is at least the character count plus
one, which a token stream can never exceed. -/
def lexAllAux : Nat → LexState → Except Err (List Token × LexState)
  | 0, _ => .error fuelErr
  | fuel + 1, st =>
    match readToken st with
    | .error e => .error e
    | .ok (none, st') => .ok ([], st')
    | .ok (some t, st') =>
      match lexAllAux fuel st' with
      | .error e => .error e
      | .ok (ts, st'') => .ok (t :: ts, st'')

/-- Lex a whole source string; returns the token list and the final
lexer location (used by the parser for end-of-input errors). -/
def lexProgram (file : String) (s : String) :
    Except Err (List Token × Location) :=
  match lexAllAux (s.length + 1) ⟨file, s.data, 1, 1, false⟩ with
  | .error e => .error e
  | .ok (ts, st) => .ok (ts, st.curLoc)

----------------------------------------------------------------------
-- Parser (parser2.cpp)
----------------------------------------------------------------------

/-
  The C++ parser pulls tokens on demand from the lexer through
  Lexer::peek / Lexer::next.  Here the token stream is pre-lexed: the
  parser state is the remaining token list plus the lexer's final
  location, which is what Lexer::get_current_loc reports once the
  input is exhausted (the parser consults it only in end-of-input
  errors).  Recursive descent is indexed by explicit fuel, passed one
  smaller to every nested parsing call.
-/

structure PState where
  toks : List Token
  eofLoc : Location
deriving Repr

/-- Lexer::peek(how_many) as seen by the parser: the how_many-th
upcoming token, or none past the end of input. -/
def PState.peek (ps : PState) (howMany : Nat) : Option Token :=
  ps.toks.get? (howMany - 1)

/-- Parser2::expect — consume the next token (SyntaxError "Unexpected
end of input" at the lexer's location if there is none) and require
the given kind, else SyntaxError "Unexpected token '…'". -/
def expect (kind : TokenKind) (ps : PState) : Except Err (Token × PState) :=
  match ps.toks with
  | [] => .error ⟨.syntaxError, some ps.eofLoc, "Unexpected end of input"⟩
  | t :: rest =>
    if t.kind = kind then
      .ok (t, { ps with toks := rest })
    else
      .error ⟨.syntaxError, some t.loc, "Unexpected token '" ++ t.text ++ "'"⟩

/-- Parser2::expect_and_discard. -/
def expectAndDiscard (kind : TokenKind) (ps : PState) : Except Err PState :=
  match expect kind ps with
  | .error e => .error e
  | .ok (_, ps') => .ok ps'

/-- Parser2::error_at_current_loc. -/
def errorAtCurrentLoc (ps : PState) (msg : String) : Err :=
  ⟨.syntaxError, some ps.eofLoc, msg⟩

/-- Parser2::can_start_expression — a token that may begin an
expression (identifier, integer literal, left parenthesis). -/
def canStartExpression (t : Token) : Bool :=
  t.kind = .IDENTIFIER || t.kind = .INTEGER_LITERAL || t.kind = .LPAREN

mutual

/-- Parser2::parse_Unit — Unit → TStmt | TStmt Unit; flattened UNIT
node (built by the do-while loop, here parseUnitAux). -/
def parseUnit : Nat → PState → Except Err (Node × PState)
  | 0, _ => .error fuelErr
  | f + 1, ps => parseUnitAux f [] ps

/-- The statement-accumulating loop inside Parser2::parse_Unit. -/
def parseUnitAux : Nat → List Node → PState → Except Err (Node × PState)
  | 0, _, _ => .error fuelErr
  | f + 1, kids, ps => do
    let (k, ps') ← parseTStmt f ps
    match ps'.peek 1 with
    | none => .ok (Node.mk .UNIT "" noLoc (kids ++ [k]), ps')
    | some _ => parseUnitAux f (kids ++ [k]) ps'

/-- Parser2::parse_TStmt — TStmt → Func | Stmt. -/
def parseTStmt : Nat → PState → Except Err (Node × PState)
  | 0, _ => .error fuelErr
  | f + 1, ps =>
    match ps.peek 1 with
    | none =>
      .error (errorAtCurrentLoc ps "Unexpected end of input looking for statement")
    | some t =>
      if t.kind = .FUNCTION then parseFunc f ps else parseStmt f ps

/-- Parser2::parse_Stmt — var declaration, if, while, or `A ;`,
wrapped in a STATEMENT node. -/
def parseStmt : Nat → PState → Except Err (Node × PState)
  | 0, _ => .error fuelErr
  | f + 1, ps =>
    match ps.peek 1 with
    | none =>
      .error (errorAtCurrentLoc ps "Unexpected end of input looking for statement")
    | some t =>
      match t.kind with
      | .VAR => do
        let (kid, ps') ← parseVarDec f ps
        .ok (Node.mk .STATEMENT "" noLoc [kid], ps')
      | .IF => do
        let (kid, ps') ← parseIf f ps
        .ok (Node.mk .STATEMENT "" noLoc [kid], ps')
      | .WHILE => do
        let (kid, ps') ← parseWhile f ps
        .ok (Node.mk .STATEMENT "" noLoc [kid], ps')
      | _ => do
        let (kid, ps₁) ← parseA f ps
        let ps₂ ← expectAndDiscard .SEMICOLON ps₁
        .ok (Node.mk .STATEMENT "" noLoc [kid], ps₂)

/-- Parser2::parse_varDec — Stmt → var ident ; producing VARDEF with a
VARREF child; the VARDEF carries the `var` keyword's location. -/
def parseVarDec : Nat → PState → Except Err (Node × PState)
  | 0, _ => .error fuelErr
  | _ + 1, ps => do
    let (varTok, ps₁) ← expect .VAR ps
    let (ident, ps₂) ← expect .IDENTIFIER ps₁
    let varRef := Node.mk .VARREF ident.text ident.loc []
    let ps₃ ← expectAndDiscard .SEMICOLON ps₂
    .ok (Node.mk .VARDEF "" varTok.loc [varRef], ps₃)

/-- Parser2::parse_If — if ( A ) { SList } [ else { SList } ]. -/
def parseIf : Nat → PState → Except Err (Node × PState)
  | 0, _ => .error fuelErr
  | f + 1, ps => do
    let (ifTok, ps₁) ← expect .IF ps
    let ps₂ ← expectAndDiscard .LPAREN ps₁
    let (cond, ps₃) ← parseA f ps₂
    let ps₄ ← expectAndDiscard .RPAREN ps₃
    let ps₅ ← expectAndDiscard .LBRACE ps₄
    let (slist, ps₆) ← parseSList f ps₅
    let ps₇ ← expectAndDiscard .RBRACE ps₆
    match ps₇.peek 1 with
    | some t =>
      if t.kind = .ELSE then do
        let (_, ps₈) ← expect .ELSE ps₇
        let ps₉ ← expectAndDiscard .LBRACE ps₈
        let (elseBlock, ps₁₀) ← parseSList f ps₉
        let ps₁₁ ← expectAndDiscard .RBRACE ps₁₀
        .ok (Node.mk .IF "" ifTok.loc [cond, slist, elseBlock], ps₁₁)
      else
        .ok (Node.mk .IF "" ifTok.loc [cond, slist], ps₇)
    | none => .ok (Node.mk .IF "" ifTok.loc [cond, slist], ps₇)

/-- Parser2::parse_While — while ( A ) { SList }. -/
def parseWhile : Nat → PState → Except Err (Node × PState)
  | 0, _ => .error fuelErr
  | f + 1, ps => do
    let (whileTok, ps₁) ← expect .WHILE ps
    let ps₂ ← expectAndDiscard .LPAREN ps₁
    let (cond, ps₃) ← parseA f ps₂
    let ps₄ ← expectAndDiscard .RPAREN ps₃
    let ps₅ ← expectAndDiscard .LBRACE ps₄
    let (slist, ps₆) ← parseSList f ps₅
    let ps₇ ← expectAndDiscard .RBRACE ps₆
    .ok (Node.mk .WHILE "" whileTok.loc [cond, slist], ps₇)

/-- Parser2::parse_SList — statements until `}` or end of input. -/
def parseSList : Nat → PState → Except Err (Node × PState)
  | 0, _ => .error fuelErr
  | f + 1, ps => parseSListAux f [] ps

/-- The loop inside Parser2::parse_SList. -/
def parseSListAux : Nat → List Node → PState → Except Err (Node × PState)
  | 0, _, _ => .error fuelErr
  | f + 1, kids, ps =>
    match ps.peek 1 with
    | none => .ok (Node.mk .STATEMENT_LIST "" noLoc kids, ps)
    | some t =>
      if t.kind = .RBRACE then
        .ok (Node.mk .STATEMENT_LIST "" noLoc kids, ps)
      else do
        let (s, ps') ← parseStmt f ps
        parseSListAux f (kids ++ [s]) ps'

/-- Parser2::parse_Func — function ident ( OptPList ) { SList };
children: VARREF name, optional PARAMETER_LIST, body STATEMENT_LIST;
location of the `function` keyword. -/
def parseFunc : Nat → PState → Except Err (Node × PState)
  | 0, _ => .error fuelErr
  | f + 1, ps => do
    let (funcTok, ps₁) ← expect .FUNCTION ps
    let (ident, ps₂) ← expect .IDENTIFIER ps₁
    let funcNameNode := Node.mk .VARREF ident.text ident.loc []
    let ps₃ ← expectAndDiscard .LPAREN ps₂
    let (plist, ps₄) ← parseOptPList f ps₃
    let ps₅ ← expectAndDiscard .RPAREN ps₄
    let ps₆ ← expectAndDiscard .LBRACE ps₅
    let (slist, ps₇) ← parseSList f ps₆
    let ps₈ ← expectAndDiscard .RBRACE ps₇
    let children :=
      match plist with
      | some p => [funcNameNode, p, slist]
      | none => [funcNameNode, slist]
    .ok (Node.mk .FUNCTION "" funcTok.loc children, ps₈)

/-- Parser2::parse_OptPList — a PARAMETER_LIST if an identifier
follows, else epsilon. -/
def parseOptPList : Nat → PState → Except Err (Option Node × PState)
  | 0, _ => .error fuelErr
  | f + 1, ps =>
    match ps.peek 1 with
    | some t =>
      if t.kind = .IDENTIFIER then do
        let (p, ps') ← parsePList f ps
        .ok (some p, ps')
      else
        .ok (none, ps)
    | none => .ok (none, ps)

/-- Parser2::parse_PList — ident { , ident } as VARREF children of a
PARAMETER_LIST node. -/
def parsePList : Nat → PState → Except Err (Node × PState)
  | 0, _ => .error fuelErr
  | f + 1, ps => do
    let (ident, ps₁) ← expect .IDENTIFIER ps
    let varRef := Node.mk .VARREF ident.text ident.loc []
    parsePListAux f [varRef] ps₁

/-- The comma loop inside Parser2::parse_PList. -/
def parsePListAux : Nat → List Node → PState → Except Err (Node × PState)
  | 0, _, _ => .error fuelErr
  | f + 1, kids, ps =>
    match ps.peek 1 with
    | some t =>
      if t.kind = .COMMA then do
        let ps₁ ← expectAndDiscard .COMMA ps
        let (ident, ps₂) ← expect .IDENTIFIER ps₁
        let varRef := Node.mk .VARREF ident.text ident.loc []
        parsePListAux f (kids ++ [varRef]) ps₂
      else
        .ok (Node.mk .PARAMETER_LIST "" noLoc kids, ps)
    | none => .ok (Node.mk .PARAMETER_LIST "" noLoc kids, ps)

/-- Parser2::parse_OptArgList — an ARGLIST if a token that can start
an expression follows, else epsilon. -/
def parseOptArgList : Nat → PState → Except Err (Option Node × PState)
  | 0, _ => .error fuelErr
  | f + 1, ps =>
    match ps.peek 1 with
    | some t =>
      if canStartExpression t then do
        let (a, ps') ← parseArgList f ps
        .ok (some a, ps')
      else
        .ok (none, ps)
    | none => .ok (none, ps)

/-- Parser2::parse_ArgList — L { , L }: each argument is parsed with
parse_L (so an assignment cannot appear directly as an argument). -/
def parseArgList : Nat → PState → Except Err (Node × PState)
  | 0, _ => .error fuelErr
  | f + 1, ps => do
    let (arg, ps₁) ← parseL f ps
    parseArgListAux f [arg] ps₁

/-- The comma loop inside Parser2::parse_ArgList. -/
def parseArgListAux : Nat → List Node → PState → Except Err (Node × PState)
  | 0, _, _ => .error fuelErr
  | f + 1, kids, ps =>
    match ps.peek 1 with
    | some t =>
      if t.kind = .COMMA then do
        let ps₁ ← expectAndDiscard .COMMA ps
        let (arg, ps₂) ← parseL f ps₁
        parseArgListAux f (kids ++ [arg]) ps₂
      else
        .ok (Node.mk .ARGLIST "" noLoc kids, ps)
    | none => .ok (Node.mk .ARGLIST "" noLoc kids, ps)

/-- Parser2::parse_E — E → T E'. -/
def parseE : Nat → PState → Except Err (Node × PState)
  | 0, _ => .error fuelErr
  | f + 1, ps => do
    let (ast, ps') ← parseT f ps
    parseEPrime f ast ps'

/-- Parser2::parse_EPrime — left-associative + and -, with the
operator token's location on the operator node. -/
def parseEPrime : Nat → Node → PState → Except Err (Node × PState)
  | 0, _, _ => .error fuelErr
  | f + 1, ast, ps =>
    match ps.peek 1 with
    | some t =>
      if t.kind = .PLUS || t.kind = .MINUS then do
        let (op, ps₁) ← expect t.kind ps
        let (termAst, ps₂) ← parseT f ps₁
        let tag := if t.kind = .PLUS then ASTKind.ADD else ASTKind.SUB
        parseEPrime f (Node.mk tag "" op.loc [ast, termAst]) ps₂
      else
        .ok (ast, ps)
    | none => .ok (ast, ps)

/-- Parser2::parse_T — T → F T'. -/
def parseT : Nat → PState → Except Err (Node × PState)
  | 0, _ => .error fuelErr
  | f + 1, ps => do
    let (ast, ps') ← parseF f ps
    parseTPrime f ast ps'

/-- Parser2::parse_TPrime — left-associative * and /. -/
def parseTPrime : Nat → Node → PState → Except Err (Node × PState)
  | 0, _, _ => .error fuelErr
  | f + 1, ast, ps =>
    match ps.peek 1 with
    | some t =>
      if t.kind = .TIMES || t.kind = .DIVIDE then do
        let (op, ps₁) ← expect t.kind ps
        let (primaryAst, ps₂) ← parseF f ps₁
        let tag := if t.kind = .TIMES then ASTKind.MULTIPLY else ASTKind.DIVIDE
        parseTPrime f (Node.mk tag "" op.loc [ast, primaryAst]) ps₂
      else
        .ok (ast, ps)
    | none => .ok (ast, ps)

/-- Parser2::parse_F — integer literal, identifier (a function call if
`(` follows), or a parenthesized expression, which is parsed with
parse_A. -/
def parseF : Nat → PState → Except Err (Node × PState)
  | 0, _ => .error fuelErr
  | f + 1, ps =>
    match ps.peek 1 with
    | none =>
      .error (errorAtCurrentLoc ps "Unexpected end of input looking for primary expression")
    | some t =>
      if t.kind = .IDENTIFIER then do
        let (ident, ps₁) ← expect .IDENTIFIER ps
        match ps₁.peek 1 with
        | some t₂ =>
          if t₂.kind = .LPAREN then do
            let ps₂ ← expectAndDiscard .LPAREN ps₁
            let (arglist, ps₃) ← parseOptArgList f ps₂
            let ps₄ ← expectAndDiscard .RPAREN ps₃
            let varRef := Node.mk .VARREF ident.text ident.loc []
            let children :=
              match arglist with
              | some a => [varRef, a]
              | none => [varRef]
            .ok (Node.mk .FNCALL "" ident.loc children, ps₄)
          else
            .ok (Node.mk .VARREF ident.text ident.loc [], ps₁)
        | none => .ok (Node.mk .VARREF ident.text ident.loc [], ps₁)
      else if t.kind = .INTEGER_LITERAL then do
        let (tok, ps₁) ← expect .INTEGER_LITERAL ps
        .ok (Node.mk .INT_LITERAL tok.text tok.loc [], ps₁)
      else if t.kind = .LPAREN then do
        let ps₁ ← expectAndDiscard .LPAREN ps
        let (ast, ps₂) ← parseA f ps₁
        let ps₃ ← expectAndDiscard .RPAREN ps₂
        .ok (ast, ps₃)
      else
        .error ⟨.syntaxError, some t.loc, "Invalid primary expression"⟩

/-- Parser2::parse_A — A → ident = A (only when the second lookahead
token is `=`) | L; the ASSIGN node carries the `=` token's location. -/
def parseA : Nat → PState → Except Err (Node × PState)
  | 0, _ => .error fuelErr
  | f + 1, ps =>
    match ps.peek 1 with
    | none =>
      .error (errorAtCurrentLoc ps "Unexpected end of input looking for assignment or expression")
    | some t =>
      if t.kind = .IDENTIFIER then
        match ps.peek 2 with
        | some t₂ =>
          if t₂.kind = .EQUAL then do
            let (ident, ps₁) ← expect .IDENTIFIER ps
            let varRef := Node.mk .VARREF ident.text ident.loc []
            let (assignOp, ps₂) ← expect .EQUAL ps₁
            let (rhs, ps₃) ← parseA f ps₂
            .ok (Node.mk .ASSIGN "" assignOp.loc [varRef, rhs], ps₃)
          else
            parseL f ps
        | none => parseL f ps
      else
        parseL f ps

/-- Parser2::parse_L — L → R [ (`||` | `&&`) R ]: non-associative,
a single logical operator. -/
def parseL : Nat → PState → Except Err (Node × PState)
  | 0, _ => .error fuelErr
  | f + 1, ps => do
    let (ast, ps₁) ← parseR f ps
    match ps₁.peek 1 with
    | some t =>
      if t.kind = .DOUBLE_PIPE || t.kind = .DOUBLE_AMPERSAND then do
        let (logicalOp, ps₂) ←
          expect (if t.kind = .DOUBLE_PIPE then .DOUBLE_PIPE else .DOUBLE_AMPERSAND) ps₁
        let (rhs, ps₃) ← parseR f ps₂
        let tag := if t.kind = .DOUBLE_PIPE then ASTKind.LOGICAL_OR else ASTKind.LOGICAL_AND
        .ok (Node.mk tag "" logicalOp.loc [ast, rhs], ps₃)
      else
        .ok (ast, ps₁)
    | none => .ok (ast, ps₁)

/-- Parser2::parse_R — R → E [ rel-op E ]: non-associative, a single
relational operator. -/
def parseR : Nat → PState → Except Err (Node × PState)
  | 0, _ => .error fuelErr
  | f + 1, ps => do
    let (ast, ps₁) ← parseE f ps
    match ps₁.peek 1 with
    | some t =>
      if t.kind = .LESS || t.kind = .LESS_EQUAL || t.kind = .GREATER ||
         t.kind = .GREATER_EQUAL || t.kind = .DOUBLE_EQUAL || t.kind = .NOT_EQUAL then do
        let (relOp, ps₂) ← expect t.kind ps₁
        let (rhs, ps₃) ← parseE f ps₂
        let tag :=
          match t.kind with
          | .LESS => ASTKind.LESS
          | .LESS_EQUAL => ASTKind.LESS_EQUAL
          | .GREATER => ASTKind.GREATER
          | .GREATER_EQUAL => ASTKind.GREATER_EQUAL
          | .DOUBLE_EQUAL => ASTKind.EQUAL
          | _ => ASTKind.NOT_EQUAL
        .ok (Node.mk tag "" relOp.loc [ast, rhs], ps₃)
      else
        .ok (ast, ps₁)
    | none => .ok (ast, ps₁)

end

/-- Parser2::parse — parse the full token stream into a UNIT node.
The fuel bound exceeds the depth of any recursive-descent derivation
of the given token list. -/
def parseTokens (toks : List Token) (eofLoc : Location) :
    Except Err (Node × PState) :=
  parseUnit (64 * (toks.length + 1)) ⟨toks, eofLoc⟩

/-- Lex and parse a source string, returning the UNIT node. -/
def parseProgram (s : String) : Except Err Node :=
  match lexProgram "input" s with
  | .error e => .error e
  | .ok (toks, eofLoc) =>
    match parseTokens toks eofLoc with
    | .error e => .error e
    | .ok (ast, _) => .ok ast

----------------------------------------------------------------------
-- Values and Function records (value.cpp, value.h, function.h)
----------------------------------------------------------------------

/-- The two intrinsic functions bound in the global environment. -/
inductive IntrinsicId where
  | print
  | println
deriving DecidableEq, Repr

/-- Modelled from the spec: function.h is not among the sources.  Per
§3, a Function record carries the function name, the ordered parameter
names, a reference to the body AST, and a reference to the defining
environment — here an index into the environment store. -/
structure Function where
  name : String
  params : List String
  body : Node
  parentEnv : Nat
deriving Repr

/-- A runtime value: integer, user function (shared Function record),
or intrinsic function, per the tagged union of value.h/§3.  The
reference-counting mechanics of value.cpp manage sharing only and have
no observable effect on evaluation results. -/
inductive Value where
  | vint (i : Int)
  | vfunction (f : Function)
  | vintrinsic (fn : IntrinsicId)
deriving Repr

/-- Value::is_int. -/
def Value.is_int : Value → Bool
  | .vint _ => true
  | _ => false

/-- Value::is_intrinsic_fn. -/
def Value.is_intrinsic_fn : Value → Bool
  | .vintrinsic _ => true
  | _ => false

/-- Modelled from the spec: value.h is not among the sources.  Per the
§7 error taxonomy, Value::get_ival asserts that the value is an
integer before returning it; a failing assertion is an internal
invariant violation (RuntimeError kind, no location), not an
EvaluationError. -/
def Value.get_ival : Value → Except Err Int
  | .vint i => .ok i
  | _ => .error ⟨.runtimeError, none, "Assertion failed: Value is not an integer (get_ival)."⟩

/-- The decimal digit characters, for printf %d formatting. -/
def digitChar : Nat → Char
  | 0 => '0'
  | 1 => '1'
  | 2 => '2'
  | 3 => '3'
  | 4 => '4'
  | 5 => '5'
  | 6 => '6'
  | 7 => '7'
  | 8 => '8'
  | _ => '9'

/-- Decimal digits of a natural number, most significant first.  A
number has fewer digits than its own successor, so the structural
step bound `n + 1` never runs out. -/
def natDecDigits : Nat → Nat → List Char
  | 0, _ => []
  | f + 1, n =>
    if n < 10 then [digitChar n]
    else natDecDigits f (n / 10) ++ [digitChar (n % 10)]

/-- printf %d formatting of a natural number. -/
def natToDec (n : Nat) : String := String.mk (natDecDigits (n + 1) n)

/-- printf %d formatting of an integer. -/
def intToDec (i : Int) : String :=
  if i < 0 then "-" ++ natToDec (-i).toNat else natToDec i.toNat

/-- Value::as_str — the textual representation used by print/println. -/
def Value.as_str : Value → String
  | .vint i => intToDec i
  | .vfunction f => "<function " ++ f.name ++ ">"
  | .vintrinsic _ => "<intrinsic function>"

----------------------------------------------------------------------
-- Environments (environment.cpp)
----------------------------------------------------------------------

/-
  C++ environments are objects linked by parent pointers and mutated
  in place; closures capture pointers to them.  They are modelled as
  an arena: the store holds every Environment ever created, a frame's
  parent is the index of an earlier frame, and an environment
  reference is an index.  Frames the C++ code destroys simply remain
  unreferenced.  The store also accumulates the standard output
  written by the intrinsics.  By construction a frame's parent index
  is strictly smaller than its own; the chain-walking functions below
  recurse on that and stop (with an internal error or a miss) on a
  malformed chain, which evaluation never creates.
-/

/-- One Environment object: optional parent (index of an earlier
frame) and the name-to-value map.  `vars` models std::map: at most one
entry per name; insertion order is irrelevant to lookup. -/
structure Frame where
  parent : Option Nat
  vars : List (String × Value)
deriving Repr

/-- The environment arena plus the text written to standard output. -/
structure Store where
  frames : List Frame
  output : String
deriving Repr

/-- std::map::find on a frame's variable map. -/
def varsFind (l : List (String × Value)) (name : String) : Option Value :=
  match l with
  | [] => none
  | (k, v) :: rest => if k = name then some v else varsFind rest name

/-- `variables[name] = value` — replace the entry if the name is
present, otherwise insert it. -/
def varsSet (l : List (String × Value)) (name : String) (v : Value) :
    List (String × Value) :=
  match l with
  | [] => [(name, v)]
  | (k, w) :: rest =>
    if k = name then (k, v) :: rest else (k, w) :: varsSet rest name v

/-- The names bound in a frame's variable map. -/
def varsNames (l : List (String × Value)) : List String := l.map Prod.fst

/-- Environment::define_variable on frame `idx` — bind (or overwrite)
the name in that single environment. -/
def Store.defineAt (st : Store) (idx : Nat) (name : String) (v : Value) : Store :=
  match st.frames.get? idx with
  | none => st
  | some f => { st with frames := st.frames.set idx { f with vars := varsSet f.vars name v } }

/-
  The chain-walking operations of environment.cpp recurse along parent
  pointers.  By construction every frame's parent index is strictly
  smaller than its own (Store.push links a new frame to an existing
  one), so a walk starting at frame idx takes at most idx + 1 steps;
  the walkers below are written with that structural step bound, which
  the wrappers instantiate.  On the malformed stores evaluation never
  creates, an exhausted bound behaves like a missing frame.
-/

/-- Environment::is_defined starting from frame `idx` — walk the
parent chain toward the root. -/
def isDefinedFromF : Nat → Store → Nat → String → Bool
  | 0, _, _, _ => false
  | f + 1, st, idx, name =>
    match st.frames.get? idx with
    | none => false
    | some fr =>
      match varsFind fr.vars name with
      | some _ => true
      | none =>
        match fr.parent with
        | none => false
        | some p => isDefinedFromF f st p name

def Store.isDefinedFrom (st : Store) (idx : Nat) (name : String) : Bool :=
  isDefinedFromF (idx + 1) st idx name

/-- Environment::is_defined restricted to the current environment
(the is_defined_in_current check used by VARDEF). -/
def Store.isDefinedInCurrent (st : Store) (idx : Nat) (name : String) : Bool :=
  match st.frames.get? idx with
  | none => false
  | some f => (varsFind f.vars name).isSome

/-- The index of the innermost environment in the chain from `idx`
that binds `name` (the environment Environment::set_variable will
update). -/
def defSiteF : Nat → Store → Nat → String → Option Nat
  | 0, _, _, _ => none
  | f + 1, st, idx, name =>
    match st.frames.get? idx with
    | none => none
    | some fr =>
      match varsFind fr.vars name with
      | some _ => some idx
      | none =>
        match fr.parent with
        | none => none
        | some p => defSiteF f st p name

def Store.defSite (st : Store) (idx : Nat) (name : String) : Option Nat :=
  defSiteF (idx + 1) st idx name

/-- Environment::get_variable — walk toward the root; RuntimeError at
the root if the name is nowhere bound. -/
def getFromF : Nat → Store → Nat → String → Except Err Value
  | 0, _, _, _ => .error ⟨.runtimeError, none, "Invalid environment reference."⟩
  | f + 1, st, idx, name =>
    match st.frames.get? idx with
    | none => .error ⟨.runtimeError, none, "Invalid environment reference."⟩
    | some fr =>
      match varsFind fr.vars name with
      | some v => .ok v
      | none =>
        match fr.parent with
        | none =>
          .error ⟨.runtimeError, none, "Undefined variable: '" ++ name ++ "'"⟩
        | some p => getFromF f st p name

def Store.getFrom (st : Store) (idx : Nat) (name : String) : Except Err Value :=
  getFromF (idx + 1) st idx name

/-- Environment::set_variable — update the entry in the innermost
environment that binds the name; RuntimeError at the root if the name
is nowhere bound.  Never inserts into a frame that lacks the name. -/
def setFromF (v : Value) : Nat → Store → Nat → String → Except Err Store
  | 0, _, _, _ => .error ⟨.runtimeError, none, "Invalid environment reference."⟩
  | f + 1, st, idx, name =>
    match st.frames.get? idx with
    | none => .error ⟨.runtimeError, none, "Invalid environment reference."⟩
    | some fr =>
      match varsFind fr.vars name with
      | some _ =>
        .ok { st with frames := st.frames.set idx { fr with vars := varsSet fr.vars name v } }
      | none =>
        match fr.parent with
        | none =>
          .error ⟨.runtimeError, none,
            "Attempt to assign to undefined variable: '" ++ name ++ "'"⟩
        | some p => setFromF v f st p name

def Store.setFrom (st : Store) (idx : Nat) (name : String) (v : Value) :
    Except Err Store :=
  setFromF v (idx + 1) st idx name

/-- `Environment child(&parent)` — allocate a fresh empty environment
whose parent is the given frame; returns its index. -/
def Store.push (st : Store) (parent : Option Nat) : Store × Nat :=
  ({ st with frames := st.frames ++ [⟨parent, []⟩] }, st.frames.length)

/-- The Interpreter constructor's global environment: no parent, with
the intrinsics print and println bound. -/
def initStore : Store :=
  ⟨[⟨none, [("print", .vintrinsic .print), ("println", .vintrinsic .println)]⟩], ""⟩

/-- The index of the global environment in `initStore`. -/
def globalEnv : Nat := 0

----------------------------------------------------------------------
-- Analyzer (Interpreter::analyze_node, interp.cpp)
----------------------------------------------------------------------

/-- Modelled from the spec: node.h is not among the sources; per the
§7 taxonomy Node::get_kid bounds-asserts, an internal invariant
violation.  Never reached on parser-produced trees. -/
def assertErr : Err := ⟨.runtimeError, none, "Assertion failed: missing child node."⟩

def getKid (n : Node) (i : Nat) : Except Err Node :=
  match n.kids.get? i with
  | some k => .ok k
  | none => .error assertErr

/-
  The analyzer uses ordinary Environment objects but stores only the
  sentinel Value(0); since analysis consults nothing but the bound
  names, an analysis environment chain is modelled as a list of name
  lists, innermost scope first.  Mutation of the current environment
  (define_variable) rebinds the head; a STATEMENT_LIST's block
  environment is dropped when the walk leaves it.
-/
abbrev AEnv := List (List String)

/-- Environment::is_defined on the analysis chain. -/
def aDefined (env : AEnv) (name : String) : Bool :=
  env.any (fun f => f.contains name)

/-- Environment::is_defined_in_current on the analysis chain. -/
def aDefinedInCurrent (env : AEnv) (name : String) : Bool :=
  match env with
  | [] => false
  | f :: _ => f.contains name

/-- Environment::define_variable on the analysis chain (std::map
insertion: the key set gains the name if absent). -/
def aDefine (env : AEnv) (name : String) : AEnv :=
  match env with
  | [] => []
  | f :: rest => (if f.contains name then f else name :: f) :: rest

mutual

/-- Interpreter::analyze_node — VARDEF defines (rejecting redefinition
in the current scope with EvaluationError), VARREF must resolve
somewhere in the chain (else SemanticError), STATEMENT_LIST pushes a
block scope for its children, everything else recurses into its
children in order, threading the environment. -/
def analyzeNode : Nat → Node → AEnv → Except Err AEnv
  | 0, _, _ => .error fuelErr
  | f + 1, node, env =>
    match node.tag with
    | .VARDEF =>
      match getKid node 0 with
      | .error e => .error e
      | .ok varNameNode =>
        let varName := varNameNode.str
        if aDefinedInCurrent env varName then
          .error ⟨.evaluationError, some node.loc,
            "Variable '" ++ varName ++ "' already defined in this scope."⟩
        else
          .ok (aDefine env varName)
    | .VARREF =>
      if aDefined env node.str then
        .ok env
      else
        .error ⟨.semanticError, some node.loc,
          "Variable '" ++ node.str ++ "' referenced before definition."⟩
    | .STATEMENT_LIST =>
      match analyzeKids f node.kids ([] :: env) with
      | .error e => .error e
      | .ok env' => .ok env'.tail
    | _ => analyzeKids f node.kids env

/-- The child loop of Interpreter::analyze_node. -/
def analyzeKids : Nat → List Node → AEnv → Except Err AEnv
  | 0, _, _ => .error fuelErr
  | _ + 1, [], env => .ok env
  | f + 1, k :: rest, env =>
    match analyzeNode f k env with
    | .error e => .error e
    | .ok env' => analyzeKids f rest env'

end

/-- Interpreter::analyze — walk the AST in a fresh analysis
environment whose parent is the global environment (which binds the
intrinsics print and println). -/
def analyzeAst (fuel : Nat) (ast : Node) : Except Err Unit :=
  match analyzeNode fuel ast [[], ["print", "println"]] with
  | .error e => .error e
  | .ok _ => .ok ()

----------------------------------------------------------------------
-- Evaluator (Interpreter::evaluate, interp.cpp)
----------------------------------------------------------------------

/-- The value of a decimal digit string. -/
def decDigitsVal : List Char → Nat → Nat
  | [], acc => acc
  | c :: rest, acc => decDigitsVal rest (acc * 10 + (c.toNat - '0'.toNat))

/-- std::stoi on an INT_LITERAL payload.  The lexer only produces
nonempty digit strings, on which stoi returns their decimal value;
the spec fixes no integer width and no overflow checking, so the
value is unbounded.  On a payload that is not a digit string stoi
would throw, modelled as an internal error. -/
def stoiModel (s : String) : Except Err Int :=
  if s.data ≠ [] && s.data.all isDigitC then
    .ok (decDigitsVal s.data 0 : Nat)
  else
    .error ⟨.runtimeError, none, "std::stoi: invalid argument"⟩

/-- Interpreter::intrinsic_print / intrinsic_println — one argument
exactly (else EvaluationError at the call's location); append the
argument's textual representation (plus a newline for println) to
standard output and return integer 0. -/
def callIntrinsic : IntrinsicId → List Value → Location → Store →
    Except Err (Value × Store)
  | .print, args, loc, st =>
    match args with
    | [a] => .ok (.vint 0, { st with output := st.output ++ a.as_str })
    | _ => .error ⟨.evaluationError, some loc, "print expects exactly one argument"⟩
  | .println, args, loc, st =>
    match args with
    | [a] => .ok (.vint 0, { st with output := st.output ++ a.as_str ++ "\n" })
    | _ => .error ⟨.evaluationError, some loc, "println expects exactly one argument"⟩

/-- Bind parameters to the already-evaluated arguments, in order, in
the fresh function-call environment. -/
def bindParams (st : Store) (envIdx : Nat) :
    List String → List Value → Store
  | p :: ps, v :: vs => bindParams (st.defineAt envIdx p v) envIdx ps vs
  | _, _ => st

mutual

/-- Interpreter::evaluate — the big switch over node tags.  `env` is
the index of the current environment in the store.  Note that the
switch has no AST_FUNCTION case: a FUNCTION statement falls through to
the default case, which raises RuntimeError "Unknown AST node type
2020 during evaluation." -/
def evaluate : Nat → Node → Nat → Store → Except Err (Value × Store)
  | 0, _, _, _ => .error fuelErr
  | f + 1, node, env, st =>
    match node.tag with
    | .INT_LITERAL =>
      match stoiModel node.str with
      | .error e => .error e
      | .ok i => .ok (.vint i, st)
    | .VARREF =>
      let varName := node.str
      if st.isDefinedFrom env varName then
        match st.getFrom env varName with
        | .error e => .error e
        | .ok v => .ok (v, st)
      else
        .error ⟨.runtimeError, none,
          "Undefined variable '" ++ varName ++ "' during execution."⟩
    | .VARDEF =>
      match getKid node 0 with
      | .error e => .error e
      | .ok varNameNode =>
        let varName := varNameNode.str
        if st.isDefinedInCurrent env varName then
          .error ⟨.evaluationError, some node.loc,
            "Variable '" ++ varName ++ "' already defined in this scope."⟩
        else
          .ok (.vint 0, st.defineAt env varName (.vint 0))
    | .ASSIGN => do
      let varRefNode ← getKid node 0
      let exprNode ← getKid node 1
      let varName := varRefNode.str
      let (exprVal, st₁) ← evaluate f exprNode env st
      if st₁.isDefinedFrom env varName then do
        let st₂ ← st₁.setFrom env varName exprVal
        .ok (exprVal, st₂)
      else
        .error ⟨.semanticError, some node.loc,
          "Assignment to undefined variable '" ++ varName ++ "'."⟩
    | .ADD => do
      let leftNode ← getKid node 0
      let rightNode ← getKid node 1
      let (leftVal, st₁) ← evaluate f leftNode env st
      let (rightVal, st₂) ← evaluate f rightNode env st₁
      let a ← leftVal.get_ival
      let b ← rightVal.get_ival
      .ok (.vint (a + b), st₂)
    | .SUB => do
      let leftNode ← getKid node 0
      let rightNode ← getKid node 1
      let (leftVal, st₁) ← evaluate f leftNode env st
      let (rightVal, st₂) ← evaluate f rightNode env st₁
      let a ← leftVal.get_ival
      let b ← rightVal.get_ival
      .ok (.vint (a - b), st₂)
    | .MULTIPLY => do
      let leftNode ← getKid node 0
      let rightNode ← getKid node 1
      let (leftVal, st₁) ← evaluate f leftNode env st
      let (rightVal, st₂) ← evaluate f rightNode env st₁
      let a ← leftVal.get_ival
      let b ← rightVal.get_ival
      .ok (.vint (a * b), st₂)
    | .DIVIDE => do
      let leftNode ← getKid node 0
      let rightNode ← getKid node 1
      let (leftVal, st₁) ← evaluate f leftNode env st
      let (rightVal, st₂) ← evaluate f rightNode env st₁
      let b ← rightVal.get_ival
      if b = 0 then
        .error ⟨.evaluationError, some node.loc, "Division by zero."⟩
      else do
        let a ← leftVal.get_ival
        .ok (.vint (Int.tdiv a b), st₂)
    | .LOGICAL_AND => do
      let k₀ ← getKid node 0
      let (leftVal, st₁) ← evaluate f k₀ env st
      if leftVal.is_int then do
        let a ← leftVal.get_ival
        if a = 0 then
          .ok (.vint 0, st₁)
        else do
          let k₁ ← getKid node 1
          let (rightVal, st₂) ← evaluate f k₁ env st₁
          if rightVal.is_int then do
            let b ← rightVal.get_ival
            .ok (.vint (if b ≠ 0 then 1 else 0), st₂)
          else
            .error ⟨.evaluationError, some node.loc, "Operand must be an integer."⟩
      else
        .error ⟨.evaluationError, some node.loc, "Operand must be an integer."⟩
    | .LOGICAL_OR => do
      let k₀ ← getKid node 0
      let (leftVal, st₁) ← evaluate f k₀ env st
      if leftVal.is_int then do
        let a ← leftVal.get_ival
        if a ≠ 0 then
          .ok (.vint 1, st₁)
        else do
          let k₁ ← getKid node 1
          let (rightVal, st₂) ← evaluate f k₁ env st₁
          if rightVal.is_int then do
            let b ← rightVal.get_ival
            .ok (.vint (if b ≠ 0 then 1 else 0), st₂)
          else
            .error ⟨.evaluationError, some node.loc, "Operand must be an integer."⟩
      else
        .error ⟨.evaluationError, some node.loc, "Operand must be an integer."⟩
    | .GREATER => do
      let leftNode ← getKid node 0
      let rightNode ← getKid node 1
      let (leftVal, st₁) ← evaluate f leftNode env st
      let (rightVal, st₂) ← evaluate f rightNode env st₁
      let a ← leftVal.get_ival
      let b ← rightVal.get_ival
      .ok (.vint (if a > b then 1 else 0), st₂)
    | .GREATER_EQUAL => do
      let leftNode ← getKid node 0
      let rightNode ← getKid node 1
      let (leftVal, st₁) ← evaluate f leftNode env st
      let (rightVal, st₂) ← evaluate f rightNode env st₁
      let a ← leftVal.get_ival
      let b ← rightVal.get_ival
      .ok (.vint (if a ≥ b then 1 else 0), st₂)
    | .LESS => do
      let leftNode ← getKid node 0
      let rightNode ← getKid node 1
      let (leftVal, st₁) ← evaluate f leftNode env st
      let (rightVal, st₂) ← evaluate f rightNode env st₁
      let a ← leftVal.get_ival
      let b ← rightVal.get_ival
      .ok (.vint (if a < b then 1 else 0), st₂)
    | .LESS_EQUAL => do
      let leftNode ← getKid node 0
      let rightNode ← getKid node 1
      let (leftVal, st₁) ← evaluate f leftNode env st
      let (rightVal, st₂) ← evaluate f rightNode env st₁
      let a ← leftVal.get_ival
      let b ← rightVal.get_ival
      .ok (.vint (if a ≤ b then 1 else 0), st₂)
    | .EQUAL => do
      let leftNode ← getKid node 0
      let rightNode ← getKid node 1
      let (leftVal, st₁) ← evaluate f leftNode env st
      let (rightVal, st₂) ← evaluate f rightNode env st₁
      let a ← leftVal.get_ival
      let b ← rightVal.get_ival
      .ok (.vint (if a = b then 1 else 0), st₂)
    | .NOT_EQUAL => do
      let leftNode ← getKid node 0
      let rightNode ← getKid node 1
      let (leftVal, st₁) ← evaluate f leftNode env st
      let (rightVal, st₂) ← evaluate f rightNode env st₁
      let a ← leftVal.get_ival
      let b ← rightVal.get_ival
      .ok (.vint (if a ≠ b then 1 else 0), st₂)
    | .STATEMENT => do
      let stmtNode ← getKid node 0
      evaluate f stmtNode env st
    | .UNIT => evalSeq f node.kids env st (.vint 0)
    | .FNCALL => do
      let funcVarrefNode ← getKid node 0
      let funcName := funcVarrefNode.str
      let funcVal ← st.getFrom env funcName
      let (argValues, st₁) ←
        if node.kids.length > 1 then do
          let argListNode ← getKid node 1
          evalList f argListNode.kids env st
        else
          .ok ([], st)
      match funcVal with
      | .vintrinsic intrinsicFn => callIntrinsic intrinsicFn argValues node.loc st₁
      | .vfunction userFn =>
        if argValues.length ≠ userFn.params.length then
          .error ⟨.evaluationError, some node.loc,
            "Incorrect number of arguments for function '" ++ funcName ++ "'."⟩
        else do
          let (st₂, fnEnv) := st₁.push (some userFn.parentEnv)
          let st₃ := bindParams st₂ fnEnv userFn.params argValues
          evaluate f userFn.body fnEnv st₃
      | .vint _ =>
        .error ⟨.evaluationError, some node.loc,
          "'" ++ funcName ++ "' is not a function."⟩
    | .IF => do
      let conditionNode ← getKid node 0
      let (conditionVal, st₁) ← evaluate f conditionNode env st
      if conditionVal.is_int then do
        let a ← conditionVal.get_ival
        if a ≠ 0 then do
          let trueBranchNode ← getKid node 1
          let (st₂, trueEnv) := st₁.push (some env)
          let (_, st₃) ← evaluate f trueBranchNode trueEnv st₂
          .ok (.vint 0, st₃)
        else if node.kids.length > 2 then do
          let falseBranchNode ← getKid node 2
          let (st₂, falseEnv) := st₁.push (some env)
          let (_, st₃) ← evaluate f falseBranchNode falseEnv st₂
          .ok (.vint 0, st₃)
        else
          .ok (.vint 0, st₁)
      else
        .error ⟨.evaluationError, some node.loc, "Condition must evaluate to an integer"⟩
    | .WHILE => do
      let conditionNode ← getKid node 0
      let (conditionVal, st₁) ← evaluate f conditionNode env st
      if conditionVal.is_int then do
        let a ← conditionVal.get_ival
        if a = 0 then
          .ok (.vint 0, st₁)
        else do
          let bodyNode ← getKid node 1
          let (st₂, bodyEnv) := st₁.push (some env)
          let (_, st₃) ← evaluate f bodyNode bodyEnv st₂
          evaluate f node env st₃
      else
        .error ⟨.evaluationError, some node.loc, "Condition must evaluate to an integer"⟩
    | .STATEMENT_LIST =>
      let (st₁, blockEnv) := st.push (some env)
      evalSeq f node.kids blockEnv st₁ (.vint 0)
    | t =>
      .error ⟨.runtimeError, none,
        "Unknown AST node type " ++ natToDec t.tagNum ++ " during evaluation."⟩

/-- The argument-evaluation loop of the FNCALL case: evaluate the
argument expressions left to right, collecting their values. -/
def evalList : Nat → List Node → Nat → Store → Except Err (List Value × Store)
  | 0, _, _, _ => .error fuelErr
  | _ + 1, [], _, st => .ok ([], st)
  | f + 1, k :: rest, env, st => do
    let (v, st') ← evaluate f k env st
    let (vs, st'') ← evalList f rest env st'
    .ok (v :: vs, st'')

/-- The statement loops of the UNIT and STATEMENT_LIST cases: evaluate
children in order; the value is the last child's (`last` starts as
integer 0 for an empty sequence). -/
def evalSeq : Nat → List Node → Nat → Store → Value → Except Err (Value × Store)
  | 0, _, _, _, _ => .error fuelErr
  | _ + 1, [], _, st, last => .ok (last, st)
  | f + 1, k :: rest, env, st, _ => do
    let (v, st') ← evaluate f k env st
    evalSeq f rest env st' v

end

/-- Interpreter::execute — evaluate the UNIT in the global
environment (which binds the intrinsics). -/
def executeAst (fuel : Nat) (ast : Node) : Except Err (Value × Store) :=
  evaluate fuel ast globalEnv initStore

/-- The driver pipeline on a source string: lex, parse, analyze,
execute; the result is the program's final Value. -/
def runProgram (fuel : Nat) (s : String) : Except Err Value :=
  match parseProgram s with
  | .error e => .error e
  | .ok ast =>
    match analyzeAst fuel ast with
    | .error e => .error e
    | .ok _ =>
      match executeAst fuel ast with
      | .error e => .error e
      | .ok (v, _) => .ok v

/-- Whether a phase result is a success. -/
def resultIsOk {α : Type} : Except Err α → Bool
  | .error _ => false
  | .ok _ => true

/-- The kind of error a phase result carries, if any. -/
def resultErrKind {α : Type} : Except Err α → Option ErrKind
  | .error e => some e.kind
  | .ok _ => none

/-
  The equations of the embedding are registered with simp so that
  concrete programs can be run inside proofs by simplification (the
  Lean kernel cannot feasibly reduce the deeply fuelled recursions
  definitionally).
-/
attribute [simp] ASTKind.tagNum Node.tag Node.str Node.loc Node.kids noLoc
  LexState.curLoc lexRead lexUnread isSpaceC isAlphaC isDigitC isAlnumC tokenCreate
  skipWsF skipWs readContinuedTokenF readContinuedToken handleIdentifierOrKeyword
  checkAndCreateDoubleCharToken handleToken readToken fuelErr lexAllAux lexProgram
  PState.peek expect expectAndDiscard errorAtCurrentLoc canStartExpression
  parseUnit parseUnitAux parseTStmt parseStmt parseVarDec parseIf parseWhile
  parseSList parseSListAux parseFunc parseOptPList parsePList parsePListAux
  parseOptArgList parseArgList parseArgListAux parseE parseEPrime parseT parseTPrime
  parseF parseA parseL parseR parseTokens parseProgram
  Value.is_int Value.is_intrinsic_fn Value.get_ival digitChar natDecDigits natToDec
  intToDec Value.as_str varsFind varsSet varsNames Store.defineAt isDefinedFromF
  Store.isDefinedFrom Store.isDefinedInCurrent defSiteF Store.defSite getFromF
  Store.getFrom setFromF Store.setFrom Store.push initStore globalEnv
  assertErr getKid aDefined aDefinedInCurrent aDefine analyzeNode analyzeKids
  analyzeAst decDigitsVal stoiModel callIntrinsic bindParams evaluate evalList
  evalSeq executeAst runProgram resultIsOk resultErrKind

----------------------------------------------------------------------
-- Claims
----------------------------------------------------------------------

/-- C1: the FUNCTION statement of the spec is not implemented by the
evaluator: on `function add(x, y) { x + y; } add(3, 4);` the parser
does produce a UNIT whose first child is a FUNCTION node, but the
analyzer rejects the program (the FUNCTION node's name VARREF `add`
is walked by the default case and is undefined), and executing the
parsed AST directly hits the evaluator's default case, which raises
RuntimeError "Unknown AST node type 2020 during evaluation." — no
Function record is ever constructed and the program cannot evaluate
to 7. -/
theorem claim1_function_statement_unsupported :
    resultIsOk (parseProgram "function add(x, y) { x + y; } add(3, 4);") = true
  ∧ (parseProgram "function add(x, y) { x + y; } add(3, 4);").bind
      (fun ast => analyzeAst 100 ast) =
      .error ⟨.semanticError, some ⟨"input", 1, 10⟩,
        "Variable 'add' referenced before definition."⟩
  ∧ (parseProgram "function add(x, y) { x + y; } add(3, 4);").bind
      (fun ast => executeAst 100 ast) =
      .error ⟨.runtimeError, none, "Unknown AST node type 2020 during evaluation."⟩ := by
  refine ⟨?_, ?_, ?_⟩ <;>
    simp [bind, Except.bind, pure, Except.pure, String.singleton, String.push,
      String.length, String.append]

/-- C3 counterexample: `(x = 1);` places an assignment directly inside
parentheses, yet parse() succeeds, producing the ASSIGN node below —
the parenthesized-expression production of parse_F calls parse_A, not
parse_L. -/
theorem claim3_counterexample :
    parseProgram "(x = 1);" =
      .ok (Node.mk .UNIT "" noLoc [Node.mk .STATEMENT "" noLoc
        [Node.mk .ASSIGN "" ⟨"input", 1, 4⟩
          [Node.mk .VARREF "x" ⟨"input", 1, 2⟩ [],
           Node.mk .INT_LITERAL "1" ⟨"input", 1, 6⟩ []]]]) := by
  simp [bind, Except.bind, pure, Except.pure, String.singleton, String.push,
    String.length, String.append]

/-- C3 amended: the parser rejects an assignment written directly as a
function-call argument (arguments are parsed with parse_L, which
cannot derive an assignment): `f(x = 1);` fails with a SyntaxError at
the `=`.  Parenthesized expressions are parsed with parse_A, however,
so an assignment directly inside `( ... )` is accepted — `(x = 1);`
parses — and an assignment can therefore still reach an argument list
through parentheses, as in `f((x = 1));`. -/
theorem claim3_amended :
    parseProgram "f(x = 1);" =
      .error ⟨.syntaxError, some ⟨"input", 1, 5⟩, "Unexpected token '='"⟩
  ∧ resultIsOk (parseProgram "(x = 1);") = true
  ∧ resultIsOk (parseProgram "f((x = 1));") = true := by
  refine ⟨?_, ?_, ?_⟩ <;>
    simp [bind, Except.bind, pure, Except.pure, String.singleton, String.push,
      String.length, String.append]

/-- C4 counterexample: the statement grammar of parse_Stmt has no
production for a brace-delimited block, so the pipeline rejects
`var x; x = 1; { var x; x = 2; } x;` at parse time with a SyntaxError
("Invalid primary expression" at the `{`); the program never reaches
the evaluator and has no final value. -/
theorem claim4_counterexample :
    runProgram 100 "var x; x = 1; { var x; x = 2; } x;" =
      .error ⟨.syntaxError, some ⟨"input", 1, 15⟩, "Invalid primary expression"⟩ := by
  simp [bind, Except.bind, pure, Except.pure, String.singleton, String.push,
    String.length, String.append]

/-- C4 amended: a top-level brace block is a syntax error (parse_Stmt
has no block production), so the quoted program is rejected by the
parser; the intended shadowing behaviour does hold for the
STATEMENT_LIST scopes that if/while bodies introduce: the pipeline
accepts `var x; x = 1; if (1) { var x; x = 2; } x;` and its final
value is the integer 1 (the inner `var x` shadows the outer one
inside the block only). -/
theorem claim4_amended :
    resultErrKind (parseProgram "var x; x = 1; { var x; x = 2; } x;") =
      some ErrKind.syntaxError
  ∧ runProgram 100 "var x; x = 1; if (1) { var x; x = 2; } x;" = .ok (.vint 1) := by
  refine ⟨?_, ?_⟩ <;>
    simp [bind, Except.bind, pure, Except.pure, String.singleton, String.push,
      String.length, String.append]

/-- C2 counterexample: in `var x; x = print; x + 1;` the left operand
of the ADD evaluates to an intrinsic-function value, yet the pipeline
does not raise an EvaluationError: the ADD case of
Interpreter::evaluate applies get_ival with no operand-kind check
(unlike the logical operators), and the failure is get_ival's internal
integer assertion — a RuntimeError-kind internal error. -/
theorem claim2_counterexample :
    runProgram 100 "var x; x = print; x + 1;" =
      .error ⟨.runtimeError, none, "Assertion failed: Value is not an integer (get_ival)."⟩
  ∧ resultErrKind (runProgram 100 "var x; x = print; x + 1;") =
      some ErrKind.runtimeError := by
  refine ⟨?_, ?_⟩ <;>
    simp [bind, Except.bind, pure, Except.pure, String.singleton, String.push,
      String.length, String.append]

/-- C2 amended: for ADD, SUB and MULTIPLY the evaluator evaluates both
operands in order (left then right, an error in either propagating),
and applies the operation to their integer contents; the operand kind
is not checked by the evaluator, so a non-integer operand is not
reported with an EvaluationError — instead get_ival's internal
integer assertion fails (an internal RuntimeError-kind error). -/
theorem claim2_arith_amended (f : Nat) (s : String) (loc : Location)
    (l r : Node) (env : Nat) (st st₁ st₂ : Store) (lv rv : Value)
    (a b : Int) (e : Err) :
    (evaluate f l env st = .error e →
      evaluate (f + 1) (Node.mk .ADD s loc [l, r]) env st = .error e)
  ∧ (evaluate f l env st = .ok (lv, st₁) → evaluate f r env st₁ = .error e →
      evaluate (f + 1) (Node.mk .ADD s loc [l, r]) env st = .error e)
  ∧ (evaluate f l env st = .ok (.vint a, st₁) →
     evaluate f r env st₁ = .ok (.vint b, st₂) →
      evaluate (f + 1) (Node.mk .ADD s loc [l, r]) env st = .ok (.vint (a + b), st₂))
  ∧ (evaluate f l env st = .ok (lv, st₁) → lv.is_int = false →
     evaluate f r env st₁ = .ok (rv, st₂) →
      evaluate (f + 1) (Node.mk .ADD s loc [l, r]) env st =
        .error ⟨.runtimeError, none, "Assertion failed: Value is not an integer (get_ival)."⟩)
  ∧ (evaluate f l env st = .ok (.vint a, st₁) →
     evaluate f r env st₁ = .ok (rv, st₂) → rv.is_int = false →
      evaluate (f + 1) (Node.mk .ADD s loc [l, r]) env st =
        .error ⟨.runtimeError, none, "Assertion failed: Value is not an integer (get_ival)."⟩)
  ∧ (evaluate f l env st = .error e →
      evaluate (f + 1) (Node.mk .SUB s loc [l, r]) env st = .error e)
  ∧ (evaluate f l env st = .ok (lv, st₁) → evaluate f r env st₁ = .error e →
      evaluate (f + 1) (Node.mk .SUB s loc [l, r]) env st = .error e)
  ∧ (evaluate f l env st = .ok (.vint a, st₁) →
     evaluate f r env st₁ = .ok (.vint b, st₂) →
      evaluate (f + 1) (Node.mk .SUB s loc [l, r]) env st = .ok (.vint (a - b), st₂))
  ∧ (evaluate f l env st = .ok (lv, st₁) → lv.is_int = false →
     evaluate f r env st₁ = .ok (rv, st₂) →
      evaluate (f + 1) (Node.mk .SUB s loc [l, r]) env st =
        .error ⟨.runtimeError, none, "Assertion failed: Value is not an integer (get_ival)."⟩)
  ∧ (evaluate f l env st = .ok (.vint a, st₁) →
     evaluate f r env st₁ = .ok (rv, st₂) → rv.is_int = false →
      evaluate (f + 1) (Node.mk .SUB s loc [l, r]) env st =
        .error ⟨.runtimeError, none, "Assertion failed: Value is not an integer (get_ival)."⟩)
  ∧ (evaluate f l env st = .error e →
      evaluate (f + 1) (Node.mk .MULTIPLY s loc [l, r]) env st = .error e)
  ∧ (evaluate f l env st = .ok (lv, st₁) → evaluate f r env st₁ = .error e →
      evaluate (f + 1) (Node.mk .MULTIPLY s loc [l, r]) env st = .error e)
  ∧ (evaluate f l env st = .ok (.vint a, st₁) →
     evaluate f r env st₁ = .ok (.vint b, st₂) →
      evaluate (f + 1) (Node.mk .MULTIPLY s loc [l, r]) env st = .ok (.vint (a * b), st₂))
  ∧ (evaluate f l env st = .ok (lv, st₁) → lv.is_int = false →
     evaluate f r env st₁ = .ok (rv, st₂) →
      evaluate (f + 1) (Node.mk .MULTIPLY s loc [l, r]) env st =
        .error ⟨.runtimeError, none, "Assertion failed: Value is not an integer (get_ival)."⟩)
  ∧ (evaluate f l env st = .ok (.vint a, st₁) →
     evaluate f r env st₁ = .ok (rv, st₂) → rv.is_int = false →
      evaluate (f + 1) (Node.mk .MULTIPLY s loc [l, r]) env st =
        .error ⟨.runtimeError, none, "Assertion failed: Value is not an integer (get_ival)."⟩) := by
  refine ⟨?_, ?_, ?_, ?_, ?_, ?_, ?_, ?_, ?_, ?_, ?_, ?_, ?_, ?_, ?_⟩
  · intro h₁
    simp only [evaluate, Node.tag, getKid, Node.kids, List.get?, bind, Except.bind, h₁]
  · intro h₁ h₂
    simp only [evaluate, Node.tag, getKid, Node.kids, List.get?, bind, Except.bind, h₁, h₂]
  · intro h₁ h₂
    simp only [evaluate, Node.tag, getKid, Node.kids, List.get?, bind, Except.bind, h₁, h₂,
      Value.get_ival]
  · intro h₁ hlv h₂
    cases lv with
    | vint i => simp [Value.is_int] at hlv
    | vfunction g =>
      simp only [evaluate, Node.tag, getKid, Node.kids, List.get?, bind, Except.bind,
        h₁, h₂, Value.get_ival]
    | vintrinsic ii =>
      simp only [evaluate, Node.tag, getKid, Node.kids, List.get?, bind, Except.bind,
        h₁, h₂, Value.get_ival]
  · intro h₁ h₂ hrv
    cases rv with
    | vint i => simp [Value.is_int] at hrv
    | vfunction g =>
      simp only [evaluate, Node.tag, getKid, Node.kids, List.get?, bind, Except.bind,
        h₁, h₂, Value.get_ival]
    | vintrinsic ii =>
      simp only [evaluate, Node.tag, getKid, Node.kids, List.get?, bind, Except.bind,
        h₁, h₂, Value.get_ival]
  · intro h₁
    simp only [evaluate, Node.tag, getKid, Node.kids, List.get?, bind, Except.bind, h₁]
  · intro h₁ h₂
    simp only [evaluate, Node.tag, getKid, Node.kids, List.get?, bind, Except.bind, h₁, h₂]
  · intro h₁ h₂
    simp only [evaluate, Node.tag, getKid, Node.kids, List.get?, bind, Except.bind, h₁, h₂,
      Value.get_ival]
  · intro h₁ hlv h₂
    cases lv with
    | vint i => simp [Value.is_int] at hlv
    | vfunction g =>
      simp only [evaluate, Node.tag, getKid, Node.kids, List.get?, bind, Except.bind,
        h₁, h₂, Value.get_ival]
    | vintrinsic ii =>
      simp only [evaluate, Node.tag, getKid, Node.kids, List.get?, bind, Except.bind,
        h₁, h₂, Value.get_ival]
  · intro h₁ h₂ hrv
    cases rv with
    | vint i => simp [Value.is_int] at hrv
    | vfunction g =>
      simp only [evaluate, Node.tag, getKid, Node.kids, List.get?, bind, Except.bind,
        h₁, h₂, Value.get_ival]
    | vintrinsic ii =>
      simp only [evaluate, Node.tag, getKid, Node.kids, List.get?, bind, Except.bind,
        h₁, h₂, Value.get_ival]
  · intro h₁
    simp only [evaluate, Node.tag, getKid, Node.kids, List.get?, bind, Except.bind, h₁]
  · intro h₁ h₂
    simp only [evaluate, Node.tag, getKid, Node.kids, List.get?, bind, Except.bind, h₁, h₂]
  · intro h₁ h₂
    simp only [evaluate, Node.tag, getKid, Node.kids, List.get?, bind, Except.bind, h₁, h₂,
      Value.get_ival]
  · intro h₁ hlv h₂
    cases lv with
    | vint i => simp [Value.is_int] at hlv
    | vfunction g =>
      simp only [evaluate, Node.tag, getKid, Node.kids, List.get?, bind, Except.bind,
        h₁, h₂, Value.get_ival]
    | vintrinsic ii =>
      simp only [evaluate, Node.tag, getKid, Node.kids, List.get?, bind, Except.bind,
        h₁, h₂, Value.get_ival]
  · intro h₁ h₂ hrv
    cases rv with
    | vint i => simp [Value.is_int] at hrv
    | vfunction g =>
      simp only [evaluate, Node.tag, getKid, Node.kids, List.get?, bind, Except.bind,
        h₁, h₂, Value.get_ival]
    | vintrinsic ii =>
      simp only [evaluate, Node.tag, getKid, Node.kids, List.get?, bind, Except.bind,
        h₁, h₂, Value.get_ival]

/-- C2 amended, witness: 2 + 3 at concrete inputs. -/
theorem claim2_arith_amended_witness :
    evaluate 1 (Node.mk .INT_LITERAL "2" noLoc []) 0 initStore = .ok (.vint 2, initStore)
  ∧ evaluate 1 (Node.mk .INT_LITERAL "3" noLoc []) 0 initStore = .ok (.vint 3, initStore)
  ∧ evaluate 2 (Node.mk .ADD "" noLoc [Node.mk .INT_LITERAL "2" noLoc [],
      Node.mk .INT_LITERAL "3" noLoc []]) 0 initStore = .ok (.vint 5, initStore) :=
  ⟨by simp, by simp,
   (claim2_arith_amended 1 "" noLoc (Node.mk .INT_LITERAL "2" noLoc [])
      (Node.mk .INT_LITERAL "3" noLoc []) 0 initStore initStore initStore
      (.vint 2) (.vint 3) 2 3 fuelErr).2.2.1 (by simp) (by simp)⟩

/-- C5: LOGICAL_OR evaluates its left operand first: a nonzero left
value yields integer 1 with the right operand unevaluated; a zero
left value makes the evaluator evaluate the right operand, yielding 1
iff it is nonzero and 0 otherwise, and an error raised by the right
operand propagates.  Dually, LOGICAL_AND with left value 0 yields 0
without evaluating its right operand.  Consequently `0 || 1 / 0;`
traps with the division-by-zero EvaluationError, while
`0 && 1 / 0;` evaluates to 0 without error. -/
theorem claim5_logical_short_circuit (f : Nat) (s : String) (loc : Location)
    (l r : Node) (env : Nat) (st st₁ st₂ : Store) (b : Int) (a : Int) (e : Err) :
    (evaluate f l env st = .ok (.vint a, st₁) → a ≠ 0 →
      evaluate (f + 1) (Node.mk .LOGICAL_OR s loc [l, r]) env st = .ok (.vint 1, st₁))
  ∧ (evaluate f l env st = .ok (.vint 0, st₁) →
     evaluate f r env st₁ = .ok (.vint b, st₂) →
      evaluate (f + 1) (Node.mk .LOGICAL_OR s loc [l, r]) env st =
        .ok (.vint (if b = 0 then 0 else 1), st₂))
  ∧ (evaluate f l env st = .ok (.vint 0, st₁) →
     evaluate f r env st₁ = .error e →
      evaluate (f + 1) (Node.mk .LOGICAL_OR s loc [l, r]) env st = .error e)
  ∧ (evaluate f l env st = .ok (.vint 0, st₁) →
      evaluate (f + 1) (Node.mk .LOGICAL_AND s loc [l, r]) env st = .ok (.vint 0, st₁))
  ∧ runProgram 100 "0 || 1 / 0;" =
      .error ⟨.evaluationError, some ⟨"input", 1, 8⟩, "Division by zero."⟩
  ∧ runProgram 100 "0 && 1 / 0;" = .ok (.vint 0) := by
  refine ⟨?_, ?_, ?_, ?_, ?_, ?_⟩
  · intro h ha
    simp only [evaluate, Node.tag, getKid, Node.kids, List.get?, bind, Except.bind, h,
      Value.is_int, Value.get_ival]
    simp [ha]
  · intro h hr
    simp only [evaluate, Node.tag, getKid, Node.kids, List.get?, bind, Except.bind, h, hr,
      Value.is_int, Value.get_ival]
    by_cases hb : b = 0 <;> simp [hb]
  · intro h hr
    simp only [evaluate, Node.tag, getKid, Node.kids, List.get?, bind, Except.bind, h, hr,
      Value.is_int, Value.get_ival]
    simp
  · intro h
    simp only [evaluate, Node.tag, getKid, Node.kids, List.get?, bind, Except.bind, h,
      Value.is_int, Value.get_ival]
    simp
  · simp [bind, Except.bind, pure, Except.pure, String.singleton, String.push,
      String.length, String.append]
  · simp [bind, Except.bind, pure, Except.pure, String.singleton, String.push,
      String.length, String.append]

/-- C5 witness: `1 || 7` at concrete inputs. -/
theorem claim5_logical_short_circuit_witness :
    evaluate 1 (Node.mk .INT_LITERAL "1" noLoc []) 0 initStore = .ok (.vint 1, initStore)
  ∧ (1 : Int) ≠ 0
  ∧ evaluate 2 (Node.mk .LOGICAL_OR "" noLoc [Node.mk .INT_LITERAL "1" noLoc [],
      Node.mk .INT_LITERAL "7" noLoc []]) 0 initStore = .ok (.vint 1, initStore) :=
  ⟨by simp, by decide,
   (claim5_logical_short_circuit 1 "" noLoc (Node.mk .INT_LITERAL "1" noLoc [])
      (Node.mk .INT_LITERAL "7" noLoc []) 0 initStore initStore initStore 0 1 fuelErr).1
     (by simp) (by decide)⟩

/-- C6: for a DIVIDE node both operands are evaluated left then right
(an error in either propagates); if the right operand's value is the
integer 0 the evaluator raises EvaluationError "Division by zero." at
the node's location without producing a quotient, and otherwise the
result is the truncated integer quotient.  The spec's scenario
`var x; x = 1 / 0;` fails with that EvaluationError. -/
theorem claim6_division_by_zero (f : Nat) (s : String) (loc : Location)
    (l r : Node) (env : Nat) (st st₁ st₂ : Store) (lv : Value)
    (a b : Int) (e : Err) :
    (evaluate f l env st = .error e →
      evaluate (f + 1) (Node.mk .DIVIDE s loc [l, r]) env st = .error e)
  ∧ (evaluate f l env st = .ok (lv, st₁) → evaluate f r env st₁ = .error e →
      evaluate (f + 1) (Node.mk .DIVIDE s loc [l, r]) env st = .error e)
  ∧ (evaluate f l env st = .ok (lv, st₁) →
     evaluate f r env st₁ = .ok (.vint 0, st₂) →
      evaluate (f + 1) (Node.mk .DIVIDE s loc [l, r]) env st =
        .error ⟨.evaluationError, some loc, "Division by zero."⟩)
  ∧ (evaluate f l env st = .ok (.vint a, st₁) →
     evaluate f r env st₁ = .ok (.vint b, st₂) → b ≠ 0 →
      evaluate (f + 1) (Node.mk .DIVIDE s loc [l, r]) env st =
        .ok (.vint (Int.tdiv a b), st₂))
  ∧ runProgram 100 "var x; x = 1 / 0;" =
      .error ⟨.evaluationError, some ⟨"input", 1, 14⟩, "Division by zero."⟩ := by
  refine ⟨?_, ?_, ?_, ?_, ?_⟩
  · intro h₁
    simp only [evaluate, Node.tag, getKid, Node.kids, List.get?, bind, Except.bind, h₁]
  · intro h₁ h₂
    simp only [evaluate, Node.tag, getKid, Node.kids, List.get?, bind, Except.bind, h₁, h₂]
  · intro h₁ h₂
    simp only [evaluate, Node.tag, getKid, Node.kids, List.get?, bind, Except.bind, h₁, h₂,
      Value.get_ival]
    simp
  · intro h₁ h₂ hb
    simp only [evaluate, Node.tag, getKid, Node.kids, List.get?, bind, Except.bind, h₁, h₂,
      Value.get_ival]
    simp [hb]
  · simp [bind, Except.bind, pure, Except.pure, String.singleton, String.push,
      String.length, String.append]

/-- C6 witness: 7 / 2 at concrete inputs. -/
theorem claim6_division_by_zero_witness :
    evaluate 1 (Node.mk .INT_LITERAL "7" noLoc []) 0 initStore = .ok (.vint 7, initStore)
  ∧ evaluate 1 (Node.mk .INT_LITERAL "2" noLoc []) 0 initStore = .ok (.vint 2, initStore)
  ∧ (2 : Int) ≠ 0
  ∧ evaluate 2 (Node.mk .DIVIDE "" noLoc [Node.mk .INT_LITERAL "7" noLoc [],
      Node.mk .INT_LITERAL "2" noLoc []]) 0 initStore = .ok (.vint 3, initStore) :=
  ⟨by simp, by simp, by decide,
   (claim6_division_by_zero 1 "" noLoc (Node.mk .INT_LITERAL "7" noLoc [])
      (Node.mk .INT_LITERAL "2" noLoc []) 0 initStore initStore initStore
      (.vint 7) 7 2 fuelErr).2.2.2.1 (by simp) (by simp) (by decide)⟩

/-- C8: the analyzer rejects a VARREF whose name is not defined in any
enclosing analysis scope with SemanticError "Variable 'x' referenced
before definition." at the node's own location; a VARDEF whose name is
already bound in the current scope is rejected with EvaluationError,
while a VARDEF whose name is bound only in an enclosing scope is
accepted and shadows it.  Concretely the one-statement program `x;`
is rejected by the analyze phase (with print/println pre-bound in the
global scope), before any execution. -/
theorem claim8_analyzer_coverage (fuel : Nat) (name s : String)
    (loc : Location) (ks : List Node) (n₀ : Node) (env : AEnv)
    (curr : List String) (rest : AEnv) :
    (aDefined env name = false →
      analyzeNode (fuel + 1) (Node.mk .VARREF name loc ks) env =
        .error ⟨.semanticError, some loc,
          "Variable '" ++ name ++ "' referenced before definition."⟩)
  ∧ (curr.contains n₀.str = true →
      analyzeNode (fuel + 1) (Node.mk .VARDEF s loc [n₀]) (curr :: rest) =
        .error ⟨.evaluationError, some loc,
          "Variable '" ++ n₀.str ++ "' already defined in this scope."⟩)
  ∧ (curr.contains n₀.str = false →
      analyzeNode (fuel + 1) (Node.mk .VARDEF s loc [n₀]) (curr :: rest) =
        .ok ((n₀.str :: curr) :: rest))
  ∧ (parseProgram "x;").bind (fun ast => analyzeAst 100 ast) =
      .error ⟨.semanticError, some ⟨"input", 1, 1⟩,
        "Variable 'x' referenced before definition."⟩ := by
  refine ⟨?_, ?_, ?_, ?_⟩
  · intro h
    simp only [analyzeNode, Node.tag, Node.str, Node.loc, h]
    simp
  · intro h
    simp only [analyzeNode, Node.tag, Node.loc, getKid, Node.kids, List.get?,
      aDefinedInCurrent, h]
    simp
  · intro h
    simp only [analyzeNode, Node.tag, Node.loc, getKid, Node.kids, List.get?,
      aDefinedInCurrent, aDefine, h]
    simp
  · simp [bind, Except.bind, pure, Except.pure, String.singleton, String.push,
      String.length, String.append]

/-- C8 witness: the name y is undefined in the chain [[], [print, println]];
the name x redefined in a current scope [x]; and x shadowing an outer [x]. -/
theorem claim8_analyzer_coverage_witness :
    aDefined [[], ["print", "println"]] "y" = false
  ∧ analyzeNode 1 (Node.mk .VARREF "y" noLoc []) [[], ["print", "println"]] =
      .error ⟨.semanticError, some noLoc, "Variable 'y' referenced before definition."⟩
  ∧ List.contains ["x"] "x" = true
  ∧ analyzeNode 1 (Node.mk .VARDEF "" noLoc [Node.mk .VARREF "x" noLoc []]) [["x"], []] =
      .error ⟨.evaluationError, some noLoc, "Variable 'x' already defined in this scope."⟩
  ∧ List.contains ([] : List String) "x" = false
  ∧ analyzeNode 1 (Node.mk .VARDEF "" noLoc [Node.mk .VARREF "x" noLoc []]) [[], ["x"]] =
      .ok [["x"], ["x"]] :=
  ⟨by decide,
   (claim8_analyzer_coverage 0 "y" "" noLoc [] (Node.mk .VARREF "y" noLoc [])
      [[], ["print", "println"]] [] []).1 (by decide),
   by decide,
   (claim8_analyzer_coverage 0 "y" "" noLoc [] (Node.mk .VARREF "x" noLoc [])
      [] ["x"] [[]]).2.1 (by decide),
   by decide,
   (claim8_analyzer_coverage 0 "y" "" noLoc [] (Node.mk .VARREF "x" noLoc [])
      [] [] [["x"]]).2.2.1 (by decide)⟩

/-- C9: when the lexer reaches a token starting with `!`, `&` or `|`
whose second character is not `=`, `&` or `|` respectively (also at
end of input), producing the next token fails with a SyntaxError; with
the second character present it produces the two-character tokens
NOT_EQUAL "!=", DOUBLE_AMPERSAND "&&" and DOUBLE_PIPE "||" located at
the first character. -/
theorem claim9_two_char_tokens (file : String) (line col : Nat)
    (rest : List Char) :
    (rest.head? ≠ some '=' →
      resultErrKind (readToken ⟨file, '!' :: rest, line, col, false⟩) =
        some ErrKind.syntaxError)
  ∧ (rest.head? ≠ some '&' →
      resultErrKind (readToken ⟨file, '&' :: rest, line, col, false⟩) =
        some ErrKind.syntaxError)
  ∧ (rest.head? ≠ some '|' →
      resultErrKind (readToken ⟨file, '|' :: rest, line, col, false⟩) =
        some ErrKind.syntaxError)
  ∧ readToken ⟨file, '!' :: '=' :: rest, line, col, false⟩ =
      .ok (some ⟨.NOT_EQUAL, "!=", ⟨file, line, col⟩⟩, ⟨file, rest, line, col + 2, false⟩)
  ∧ readToken ⟨file, '&' :: '&' :: rest, line, col, false⟩ =
      .ok (some ⟨.DOUBLE_AMPERSAND, "&&", ⟨file, line, col⟩⟩,
        ⟨file, rest, line, col + 2, false⟩)
  ∧ readToken ⟨file, '|' :: '|' :: rest, line, col, false⟩ =
      .ok (some ⟨.DOUBLE_PIPE, "||", ⟨file, line, col⟩⟩,
        ⟨file, rest, line, col + 2, false⟩) := by
  refine ⟨?_, ?_, ?_, ?_, ?_, ?_⟩
  · intro h
    match rest with
    | [] =>
      simp [String.singleton, String.push, String.length]
    | c :: rest' =>
      have hc : ¬ (c = '=') := by
        intro hcontra
        exact h (by simp [hcontra])
      by_cases hn : c = '\n' <;>
        simp [String.singleton, String.push, String.length, hc, hn]
  · intro h
    match rest with
    | [] =>
      simp [String.singleton, String.push, String.length]
    | c :: rest' =>
      have hc : ¬ (c = '&') := by
        intro hcontra
        exact h (by simp [hcontra])
      by_cases hn : c = '\n' <;>
        simp [String.singleton, String.push, String.length, hc, hn]
  · intro h
    match rest with
    | [] =>
      simp [String.singleton, String.push, String.length]
    | c :: rest' =>
      have hc : ¬ (c = '|') := by
        intro hcontra
        exact h (by simp [hcontra])
      by_cases hn : c = '\n' <;>
        simp [String.singleton, String.push, String.length, hc, hn]
  · simp [String.singleton, String.push, String.length]
  · simp [String.singleton, String.push, String.length]
  · simp [String.singleton, String.push, String.length]

/-- C9 witness: `!1` fails; with no following character `&` fails;
`|,` fails. -/
theorem claim9_two_char_tokens_witness :
    (['1'].head? ≠ some '=')
  ∧ resultErrKind (readToken ⟨"input", '!' :: ['1'], 1, 1, false⟩) =
      some ErrKind.syntaxError
  ∧ (([] : List Char).head? ≠ some '&')
  ∧ resultErrKind (readToken ⟨"input", '&' :: [], 1, 1, false⟩) =
      some ErrKind.syntaxError
  ∧ ([','].head? ≠ some '|')
  ∧ resultErrKind (readToken ⟨"input", '|' :: [','], 1, 1, false⟩) =
      some ErrKind.syntaxError :=
  ⟨by decide, (claim9_two_char_tokens "input" 1 1 ['1']).1 (by decide),
   by decide, (claim9_two_char_tokens "input" 1 1 []).2.1 (by decide),
   by decide, (claim9_two_char_tokens "input" 1 1 [',']).2.2.1 (by decide)⟩

/-- C10: in an FNCALL whose callee resolves to a user function, all
argument expressions are evaluated (left to right, by evalList)
before the arity is compared: an error during argument evaluation
propagates regardless of the argument count, and the arity-mismatch
EvaluationError at the call's location is produced only from an
argument list that evaluated successfully to values whose count
differs from the parameter count. -/
theorem claim10_args_evaluated_before_arity (f : Nat) (s as : String)
    (loc aloc : Location) (n₀ : Node) (args : List Node) (env : Nat)
    (st st₁ : Store) (fn : Function) (vals : List Value) (e : Err) :
    (st.getFrom env n₀.str = .ok (.vfunction fn) →
     evalList f args env st = .error e →
      evaluate (f + 1)
        (Node.mk .FNCALL s loc [n₀, Node.mk .ARGLIST as aloc args]) env st =
        .error e)
  ∧ (st.getFrom env n₀.str = .ok (.vfunction fn) →
     evalList f args env st = .ok (vals, st₁) →
     vals.length ≠ fn.params.length →
      evaluate (f + 1)
        (Node.mk .FNCALL s loc [n₀, Node.mk .ARGLIST as aloc args]) env st =
        .error ⟨.evaluationError, some loc,
          "Incorrect number of arguments for function '" ++ n₀.str ++ "'."⟩) := by
  refine ⟨?_, ?_⟩
  · intro h₁ h₂
    simp only [evaluate, Node.tag, getKid, Node.kids, List.get?, bind, Except.bind]
    rw [h₁]
    simp [h₂]
  · intro h₁ h₂ h₃
    simp only [evaluate, Node.tag, getKid, Node.kids, List.get?, bind, Except.bind]
    rw [h₁]
    simp [h₂, h₃]

/-- C10 witness: a store binding g to a two-parameter function; a
single argument `1 / 0` errors before arity is checked, and a single
successfully evaluated argument trips the arity error. -/
theorem claim10_args_evaluated_before_arity_witness :
    (Store.getFrom ⟨[⟨none, [("g", .vfunction ⟨"g", ["a", "b"],
        Node.mk .INT_LITERAL "0" noLoc [], 0⟩)]⟩], ""⟩ 0 "g" =
      .ok (.vfunction ⟨"g", ["a", "b"], Node.mk .INT_LITERAL "0" noLoc [], 0⟩))
  ∧ evalList 3 [Node.mk .DIVIDE "" noLoc [Node.mk .INT_LITERAL "1" noLoc [],
      Node.mk .INT_LITERAL "0" noLoc []]] 0
      ⟨[⟨none, [("g", .vfunction ⟨"g", ["a", "b"],
        Node.mk .INT_LITERAL "0" noLoc [], 0⟩)]⟩], ""⟩ =
      .error ⟨.evaluationError, some noLoc, "Division by zero."⟩
  ∧ evaluate 4 (Node.mk .FNCALL "" noLoc [Node.mk .VARREF "g" noLoc [],
      Node.mk .ARGLIST "" noLoc [Node.mk .DIVIDE "" noLoc
        [Node.mk .INT_LITERAL "1" noLoc [], Node.mk .INT_LITERAL "0" noLoc []]]]) 0
      ⟨[⟨none, [("g", .vfunction ⟨"g", ["a", "b"],
        Node.mk .INT_LITERAL "0" noLoc [], 0⟩)]⟩], ""⟩ =
      .error ⟨.evaluationError, some noLoc, "Division by zero."⟩ :=
  ⟨by simp, by simp [bind, Except.bind, pure, Except.pure],
   (claim10_args_evaluated_before_arity 3 "" "" noLoc noLoc
      (Node.mk .VARREF "g" noLoc [])
      [Node.mk .DIVIDE "" noLoc [Node.mk .INT_LITERAL "1" noLoc [],
        Node.mk .INT_LITERAL "0" noLoc []]] 0
      ⟨[⟨none, [("g", .vfunction ⟨"g", ["a", "b"],
        Node.mk .INT_LITERAL "0" noLoc [], 0⟩)]⟩], ""⟩
      ⟨[⟨none, [("g", .vfunction ⟨"g", ["a", "b"],
        Node.mk .INT_LITERAL "0" noLoc [], 0⟩)]⟩], ""⟩
      ⟨"g", ["a", "b"], Node.mk .INT_LITERAL "0" noLoc [], 0⟩ []
      ⟨.evaluationError, some noLoc, "Division by zero."⟩).1
     (by simp) (by simp [bind, Except.bind, pure, Except.pure])⟩

/-- Updating a name that a variable map already binds changes no key:
the names of the map are preserved by varsSet. -/
theorem varsNames_varsSet_of_found (name : String) (v : Value) :
    ∀ (l : List (String × Value)) (w : Value),
      varsFind l name = some w →
      varsNames (varsSet l name v) = varsNames l := by
  intro l
  induction l with
  | nil => intro w h; simp [varsFind] at h
  | cons kv rest ih =>
    intro w h
    obtain ⟨k, u⟩ := kv
    by_cases hk : k = name
    · simp [varsFind, varsSet, varsNames, hk]
    · simp only [varsFind, if_neg hk] at h
      simp only [varsSet, if_neg hk, varsNames, List.map_cons]
      simpa [varsNames] using ih w h

/-- Environment::set_variable updates exactly the frame that the
defSite walk finds (the innermost frame of the chain binding the
name), replacing that frame's entry and leaving every other frame of
the store untouched; the step bound is shared by both walks. -/
theorem setFromF_of_defSiteF (v : Value) (n : Nat) :
    ∀ (st : Store) (idx j : Nat) (name : String) (fr : Frame),
      defSiteF n st idx name = some j →
      st.frames.get? j = some fr →
      setFromF v n st idx name =
        .ok { st with frames := st.frames.set j { fr with vars := varsSet fr.vars name v } } := by
  induction n with
  | zero =>
    intro st idx j name fr hd hj
    simp [defSiteF] at hd
  | succ n ih =>
    intro st idx j name fr hd hj
    simp only [defSiteF] at hd
    simp only [setFromF]
    cases hfr : st.frames.get? idx with
    | none =>
      simp only [hfr] at hd
      exact Option.noConfusion hd
    | some fr' =>
      simp only [hfr] at hd ⊢
      cases hv : varsFind fr'.vars name with
      | some w =>
        simp only [hv] at hd ⊢
        injection hd with hidx
        subst hidx
        rw [hfr] at hj
        injection hj with hfr'
        subst hfr'
        rfl
      | none =>
        simp only [hv] at hd ⊢
        cases hp : fr'.parent with
        | none =>
          simp only [hp] at hd
          exact Option.noConfusion hd
        | some p =>
          simp only [hp] at hd ⊢
          exact ih st p j name fr hd hj

/-- C7: Environment::set_variable walks the parent chain and updates
the value in the innermost enclosing environment that already binds
the name (the frame found by Store.defSite): only that frame changes
and its key set is preserved, so assignment never creates a binding
in a child scope and never shadows.  An ASSIGN node evaluates its
right-hand side first (an error there propagates), its result is the
right-hand side's value, and assignment to a name bound in no
enclosing environment raises SemanticError at the node's location. -/
theorem claim7_assignment_updates_innermost (f : Nat) (s x name : String)
    (loc xl : Location) (xks : List Node) (rhs : Node) (env idx j : Nat)
    (st st₁ st₂ : Store) (fr : Frame) (v w val : Value) (e : Err) :
    (Store.defSite st idx name = some j → st.frames.get? j = some fr →
      Store.setFrom st idx name v =
        .ok { st with frames := st.frames.set j { fr with vars := varsSet fr.vars name v } })
  ∧ (varsFind fr.vars name = some w →
      varsNames (varsSet fr.vars name v) = varsNames fr.vars)
  ∧ (evaluate f rhs env st = .error e →
      evaluate (f + 1) (Node.mk .ASSIGN s loc [Node.mk .VARREF x xl xks, rhs]) env st =
        .error e)
  ∧ (evaluate f rhs env st = .ok (val, st₁) → st₁.isDefinedFrom env x = false →
      evaluate (f + 1) (Node.mk .ASSIGN s loc [Node.mk .VARREF x xl xks, rhs]) env st =
        .error ⟨.semanticError, some loc,
          "Assignment to undefined variable '" ++ x ++ "'."⟩)
  ∧ (evaluate f rhs env st = .ok (val, st₁) → st₁.isDefinedFrom env x = true →
     st₁.setFrom env x val = .ok st₂ →
      evaluate (f + 1) (Node.mk .ASSIGN s loc [Node.mk .VARREF x xl xks, rhs]) env st =
        .ok (val, st₂)) := by
  refine ⟨?_, ?_, ?_, ?_, ?_⟩
  · intro hd hj
    exact setFromF_of_defSiteF v (idx + 1) st idx j name fr hd hj
  · intro hfound
    exact varsNames_varsSet_of_found name v fr.vars w hfound
  · intro h₁
    simp only [evaluate, Node.tag, Node.str, getKid, Node.kids, List.get?, bind,
      Except.bind, h₁]
  · intro h₁ h₂
    simp only [evaluate, Node.tag, Node.str, Node.loc, getKid, Node.kids, List.get?, bind,
      Except.bind, h₁, h₂]
    simp
  · intro h₁ h₂ h₃
    simp only [evaluate, Node.tag, Node.str, getKid, Node.kids, List.get?, bind,
      Except.bind, h₁, h₂]
    rw [h₃]
    simp

/-- C7 witness: a two-frame chain where the child frame binds y and
the root binds x; assigning to x from the child updates the root
frame in place. -/
theorem claim7_assignment_updates_innermost_witness :
    Store.defSite ⟨[⟨none, [("x", .vint 0)]⟩, ⟨some 0, [("y", .vint 1)]⟩], ""⟩ 1 "x" = some 0
  ∧ (⟨[⟨none, [("x", .vint 0)]⟩, ⟨some 0, [("y", .vint 1)]⟩], ""⟩ : Store).frames.get? 0 =
      some ⟨none, [("x", .vint 0)]⟩
  ∧ Store.setFrom ⟨[⟨none, [("x", .vint 0)]⟩, ⟨some 0, [("y", .vint 1)]⟩], ""⟩ 1 "x" (.vint 5) =
      .ok ⟨[⟨none, [("x", .vint 5)]⟩, ⟨some 0, [("y", .vint 1)]⟩], ""⟩ :=
  ⟨by simp, by simp,
   (claim7_assignment_updates_innermost 0 "" "" "x" noLoc noLoc [] (Node.mk .UNIT "" noLoc [])
      0 1 0 ⟨[⟨none, [("x", .vint 0)]⟩, ⟨some 0, [("y", .vint 1)]⟩], ""⟩
      ⟨[], ""⟩ ⟨[], ""⟩ ⟨none, [("x", .vint 0)]⟩ (.vint 5) (.vint 0) (.vint 0) fuelErr).1
     (by simp) (by simp)⟩

end Minilang
